/-
Verification of the DocuMind extraction-and-normalization pipeline.

This file embeds the core logic of the repository in Lean 4:
  * `app/services/validator.py`  — PAN / Aadhaar validation and normalization
  * `app/services/extractor.py`  — JSON-recovery parser and the single-document
    extraction pipeline (external effects are modelled as an explicit
    environment)
  * `app/api/endpoints/batch.py` — sequential and concurrent batch
    orchestration and the aggregate-status fold

Python strings are modelled as `List Char`; Python dicts produced by JSON
parsing are modelled by the `PyVal` / `PyDict` types.  Python functions that
can raise are modelled with `Except`.  The model is ASCII-faithful: `.upper()`,
`.lower()` and `.strip()` are modelled on the ASCII range (all inputs in the
repository's data flow that the claims mention are ASCII).
-/
import Mathlib

set_option autoImplicit false

namespace DocuMind

/-- Python strings, modelled as lists of characters. -/
abbrev Str := List Char

/-- The ASCII-range characters that Python's `str.strip()` removes:
whitespace (TAB..CR, the separator controls FS..US, and space). -/
def isPyWhitespace (c : Char) : Bool :=
  (9 ≤ c.toNat && c.toNat ≤ 13) || (28 ≤ c.toNat && c.toNat ≤ 32)

/-- Embeds `s.strip()` — drop leading and trailing whitespace. -/
def pyStrip (s : Str) : Str :=
  ((s.dropWhile isPyWhitespace).reverse.dropWhile isPyWhitespace).reverse

/-- Embeds `s.replace(old, "")` for a single-character `old`: remove every
occurrence of the character `c`. -/
def removeAll (c : Char) (s : Str) : Str :=
  s.filter (fun d => decide ¬ (d = c))

/-- The lowercase ASCII letters. -/
def lowerLetters : Str :=
  ['a', 'b', 'c', 'd', 'e', 'f', 'g', 'h', 'i', 'j', 'k', 'l', 'm',
   'n', 'o', 'p', 'q', 'r', 's', 't', 'u', 'v', 'w', 'x', 'y', 'z']

/-- The uppercase ASCII letters. -/
def upperLetters : Str :=
  ['A', 'B', 'C', 'D', 'E', 'F', 'G', 'H', 'I', 'J', 'K', 'L', 'M',
   'N', 'O', 'P', 'Q', 'R', 'S', 'T', 'U', 'V', 'W', 'X', 'Y', 'Z']

/-- ASCII model of uppercasing one character (Python `str.upper`). -/
def upperChar (c : Char) : Char :=
  if c ∈ lowerLetters then Char.ofNat (c.toNat - 32) else c

/-- ASCII model of lowercasing one character (Python `str.lower`). -/
def lowerChar (c : Char) : Char :=
  if c ∈ upperLetters then Char.ofNat (c.toNat + 32) else c

/-- Embeds `s.upper()` (ASCII model). -/
def pyUpper (s : Str) : Str := s.map upperChar

/-- Embeds `s.lower()` (ASCII model). -/
def pyLower (s : Str) : Str := s.map lowerChar

theorem lowerLetter_facts (c : Char) (hm : c ∈ lowerLetters) :
    isPyWhitespace (Char.ofNat (c.toNat - 32)) = false ∧
    Char.ofNat (c.toNat - 32) ∉ lowerLetters ∧
    ¬ (Char.ofNat (c.toNat - 32) = ' ') := by
  simp only [lowerLetters, List.mem_cons, List.not_mem_nil, or_false] at hm
  rcases hm with rfl | rfl | rfl | rfl | rfl | rfl | rfl | rfl | rfl | rfl | rfl | rfl | rfl |
    rfl | rfl | rfl | rfl | rfl | rfl | rfl | rfl | rfl | rfl | rfl | rfl | rfl <;> decide

theorem upperChar_not_ws {c : Char} (h : isPyWhitespace c = false) :
    isPyWhitespace (upperChar c) = false := by
  by_cases hm : c ∈ lowerLetters
  · unfold upperChar
    rw [if_pos hm]
    exact (lowerLetter_facts c hm).1
  · unfold upperChar
    rw [if_neg hm]
    exact h

theorem upperChar_upperChar (c : Char) : upperChar (upperChar c) = upperChar c := by
  by_cases hm : c ∈ lowerLetters
  · have h1 : upperChar c = Char.ofNat (c.toNat - 32) := by rw [upperChar, if_pos hm]
    rw [h1, upperChar, if_neg (lowerLetter_facts c hm).2.1]
  · have h1 : upperChar c = c := by rw [upperChar, if_neg hm]
    rw [h1]
    exact h1

theorem upperChar_eq_space {c : Char} (h : upperChar c = ' ') : c = ' ' := by
  by_cases hm : c ∈ lowerLetters
  · rw [upperChar, if_pos hm] at h
    exact absurd h (lowerLetter_facts c hm).2.2
  · rwa [upperChar, if_neg hm] at h

/-! ### Substring search and Python slicing -/

/-- Index of the first occurrence of `pat` in `s`, if any. -/
def findSubIdx (s pat : Str) : Option Nat :=
  match s with
  | [] => if pat.isEmpty then some 0 else none
  | _ :: rest =>
    if pat.isPrefixOf s then some 0
    else (findSubIdx rest pat).map (· + 1)

/-- Embeds `pat in s` (Python substring containment). -/
def containsSub (s pat : Str) : Bool := (findSubIdx s pat).isSome

/-- Embeds `s.find(pat, start)` — Python `str.find` with a start position:
lowest index `≥ start` where `pat` occurs, `-1` if absent. -/
def pyFind (s pat : Str) (start : Nat) : Int :=
  match findSubIdx (s.drop start) pat with
  | some i => (i + start : Nat)
  | none => -1

/-- Embeds `s.rfind(c)` for a single character: highest index where `c` occurs,
`-1` if absent. -/
def pyRFindChar (s : Str) (c : Char) : Int :=
  match s.reverse.findIdx? (fun d => decide (d = c)) with
  | some i => (s.length - 1 - i : Nat)
  | none => -1

/-- Embeds `s[a:b]` — Python slice with a non-negative start and a possibly
negative stop (a negative stop counts from the end). -/
def pySlice (s : Str) (a : Nat) (b : Int) : Str :=
  let n := s.length
  let stop : Nat := if b < 0 then n - (-b).toNat else min b.toNat n
  (s.take stop).drop a

/-! ### Python values and dicts

JSON parsing can produce any JSON value, so dict values are modelled by a
small universe of Python values. -/

inductive PyVal where
  | str (s : Str)
  | int (n : Int)
  | bool (b : Bool)
  | none
  | list (xs : List PyVal)
  | dict (entries : List (Str × PyVal))

instance : Inhabited PyVal := ⟨PyVal.none⟩

/-- A Python dict with string keys (insertion-ordered association list). -/
abbrev PyDict := List (Str × PyVal)

/-- Python truthiness (`bool(v)`), as used by `if validated_data["..."]:`. -/
def truthy : PyVal → Bool
  | .str s => decide ¬ (s = [])
  | .int n => decide ¬ (n = 0)
  | .bool b => b
  | .none => false
  | .list xs => !xs.isEmpty
  | .dict es => !es.isEmpty

/-- Embeds `d[k]` lookup (first binding wins; Python dicts have unique keys). -/
def dLookup (d : PyDict) (k : Str) : Option PyVal :=
  match d with
  | [] => Option.none
  | (k', v) :: rest => if k' = k then some v else dLookup rest k

/-- Embeds `d[k] = v` — update an existing key in place, else append. -/
def dSet (d : PyDict) (k : Str) (v : PyVal) : PyDict :=
  match d with
  | [] => [(k, v)]
  | (k', v') :: rest => if k' = k then (k', v) :: rest else (k', v') :: dSet rest k v

theorem dLookup_dSet_self (d : PyDict) (k : Str) (v : PyVal) :
    dLookup (dSet d k v) k = some v := by
  induction d with
  | nil => simp [dSet, dLookup]
  | cons p rest ih =>
    by_cases h : p.1 = k
    · simp [dSet, dLookup, h]
    · simp only [dSet, dLookup, h, if_false, if_neg h]
      exact ih

theorem dLookup_dSet_other (d : PyDict) (k k' : Str) (v : PyVal) (hk : ¬ (k' = k)) :
    dLookup (dSet d k v) k' = dLookup d k' := by
  have hk2 : ¬ (k = k') := fun hh => hk hh.symm
  induction d with
  | nil => simp [dSet, dLookup, hk2]
  | cons p rest ih =>
    by_cases h : p.1 = k
    · have hpk : ¬ (p.1 = k') := by rw [h]; exact hk2
      simp [dSet, dLookup, h, hpk, hk2]
    · by_cases h2 : p.1 = k'
      · simp [dSet, dLookup, h, h2, hk]
      · simp only [dSet, if_neg h, dLookup, if_neg h2]
        exact ih

theorem dSet_eq_self (d : PyDict) (k : Str) (v : PyVal) (h : dLookup d k = some v) :
    dSet d k v = d := by
  induction d with
  | nil => simp [dLookup] at h
  | cons p rest ih =>
    by_cases hk : p.1 = k
    · simp only [dLookup, hk, if_pos rfl] at h
      cases p with
      | mk k' v' =>
        simp only at hk
        simp only at h
        simp [dSet, hk, h.symm]
        subst hk
        injection h with h
        rw [h]
    · simp only [dLookup, if_neg hk] at h
      simp [dSet, if_neg hk, ih h]

/-! ### `app/services/validator.py` -/

def isAsciiDigit (c : Char) : Bool := '0' ≤ c && c ≤ '9'

def isAsciiUpper (c : Char) : Bool := 'A' ≤ c && c ≤ 'Z'

/-- Body of `^[A-Z]{5}[0-9]{4}[A-Z]{1}$`. -/
def panRegexBody (s : Str) : Bool :=
  s.length == 10 && (s.take 5).all isAsciiUpper &&
    ((s.drop 5).take 4).all isAsciiDigit && (s.drop 9).all isAsciiUpper

/-- Body of `^[0-9X]{12}$`. -/
def aadhaarRegexBody (s : Str) : Bool :=
  s.length == 12 && s.all (fun c => isAsciiDigit c || c = 'X')

/-- Embeds `re.match(r'^body$', s) is not None`: in Python the `$` anchor also
matches just before a trailing newline. -/
def reMatchFull (body : Str → Bool) (s : Str) : Bool :=
  body s || (s.getLast? == some '\n' && body s.dropLast)

/-- Embeds `validate_pan_format` (validator.py:8). -/
def validate_pan_format (pan_number : Str) : Bool × Str :=
  if pan_number.isEmpty then (false, "PAN number is empty".data)
  else
    if reMatchFull panRegexBody (pyUpper (pyStrip pan_number)) then
      (true, "Valid PAN format".data)
    else
      (false, "Invalid PAN format. Expected format: ABCDE1234F (5 letters, 4 digits, 1 letter)".data)

/-- Embeds `aadhaar_number.strip().replace(" ", "").replace("-", "")` — the
cleaning composite appearing verbatim in both `validate_aadhaar_format`
(validator.py:51) and `clean_aadhaar_number` (validator.py:94). -/
def aadhaarCleanRaw (s : Str) : Str := removeAll '-' (removeAll ' ' (pyStrip s))

/-- Embeds `f"{cleaned[0:4]} {cleaned[4:8]} {cleaned[8:12]}"` (validator.py:98). -/
def aadhaarGroup (cleaned : Str) : Str :=
  cleaned.take 4 ++ ' ' :: ((cleaned.drop 4).take 4) ++ ' ' :: cleaned.drop 8

/-- Embeds `validate_aadhaar_format` (validator.py:35). -/
def validate_aadhaar_format (aadhaar_number : Str) : Bool × Str :=
  if aadhaar_number.isEmpty then (false, "Aadhaar number is empty".data)
  else
    if !reMatchFull aadhaarRegexBody (aadhaarCleanRaw aadhaar_number) then
      (false, "Invalid Aadhaar format. Expected 12 digits (may contain X for masked digits)".data)
    else if aadhaarCleanRaw aadhaar_number = List.replicate 12 'X' then
      (false, "Aadhaar number is completely masked".data)
    else (true, "Valid Aadhaar format".data)

/-- Embeds `clean_pan_number` (validator.py:64). -/
def clean_pan_number (pan_number : Str) : Str :=
  if pan_number.isEmpty then [] else removeAll ' ' (pyUpper (pyStrip pan_number))

/-- Embeds `clean_aadhaar_number` (validator.py:80). -/
def clean_aadhaar_number (aadhaar_number : Str) : Str :=
  if aadhaar_number.isEmpty then []
  else
    if (aadhaarCleanRaw aadhaar_number).length == 12 then
      aadhaarGroup (aadhaarCleanRaw aadhaar_number)
    else aadhaarCleanRaw aadhaar_number

/-- Python exceptions that `validate_extracted_data` can raise when a field
value is not a string (duck typing: `.strip()` on a non-string raises
`AttributeError`). -/
inductive PyExn where
  | attributeError
  | typeError
  deriving DecidableEq

def panKey : Str := "pan_number".data

def panValidKey : Str := "pan_valid".data

def aadhaarKey : Str := "aadhaar_number".data

def aadhaarValidKey : Str := "aadhaar_valid".data

def panTag : Str := "pan".data

def aadhaarTag : Str := "aadhaar".data

/-- Embeds `validate_extracted_data` (validator.py:103).  `data.copy()` is
value semantics here; a truthy non-string field value makes
`clean_pan_number` / `clean_aadhaar_number` call `.strip()` on a
non-string, raising `AttributeError`. -/
def validate_extracted_data (data : PyDict) (document_type : Str) : Except PyExn PyDict :=
  if document_type = panTag then
    match dLookup data panKey with
    | some v =>
      if truthy v then
        match v with
        | .str s =>
          let pan := clean_pan_number s
          let r := validate_pan_format pan
          .ok (dSet (dSet data panKey (.str pan)) panValidKey (.bool r.1))
        | _ => .error .attributeError
      else .ok (dSet data panValidKey (.bool false))
    | Option.none => .ok (dSet data panValidKey (.bool false))
  else if document_type = aadhaarTag then
    match dLookup data aadhaarKey with
    | some v =>
      if truthy v then
        match v with
        | .str s =>
          let aadhaar := clean_aadhaar_number s
          let r := validate_aadhaar_format aadhaar
          .ok (dSet (dSet data aadhaarKey (.str aadhaar)) aadhaarValidKey (.bool r.1))
        | _ => .error .attributeError
      else .ok (dSet data aadhaarValidKey (.bool false))
    | Option.none => .ok (dSet data aadhaarValidKey (.bool false))
  else .ok data

example : (validate_pan_format ("ABCDE1234F".data)).1 = true := by decide

example : clean_pan_number ("abc de1234f".data) = "ABCDE1234F".data := by decide

example : (validate_pan_format (clean_pan_number ("abc de1234f".data))).1 = true := by decide

example : (validate_pan_format ("ABC123".data)).1 = false := by decide

example : clean_aadhaar_number ("123456789012".data) = "1234 5678 9012".data := by decide

example : (validate_aadhaar_format (clean_aadhaar_number ("1234 5678 9012".data))).1 = true := by
  decide

example : (validate_aadhaar_format (clean_aadhaar_number ("XXXXXXXXXXXX".data))).1 = false := by
  decide

example : (validate_aadhaar_format (clean_aadhaar_number ("XXXX 5678 9012".data))).1 = true := by
  decide

example : (validate_aadhaar_format (clean_aadhaar_number ("12345".data))).1 = false := by decide

-- The double-clean artifact: hyphen removal can expose a tab, which only the
-- second cleaning strips.
example : clean_aadhaar_number ("-\t1".data) = "\t1".data := by decide

example : clean_aadhaar_number (clean_aadhaar_number ("-\t1".data)) = "1".data := by decide

-- A 13-character cleaned value whose re-cleaning inside
-- validate_aadhaar_format drops the leading tab and then matches.
example : clean_aadhaar_number ("-\t111122223333".data) = "\t111122223333".data := by decide

example : (validate_aadhaar_format (clean_aadhaar_number ("-\t111122223333".data))).1 = true := by
  decide

/-! ### A model of the Python stdlib `json.loads`

`json.loads` is external library code (not part of this repository); the
response parser only needs an abstract decoder `Str → Option PyVal`, and the
structural theorems below are proved for every decoder.  For concrete
witnesses and counterexamples we use this executable model of `json.loads`,
restricted to integer numerals (fractional/exponent numerals and `\u`
escapes are not modelled; no claim depends on them). -/

def jsonSkipWs (s : Str) : Str :=
  s.dropWhile (fun c => c = ' ' || c = '\t' || c = '\n' || c = '\r')

def jsonEscape (c : Char) : Option Char :=
  if c = '"' then some '"'
  else if c = '\\' then some '\\'
  else if c = '/' then some '/'
  else if c = 'n' then some '\n'
  else if c = 't' then some '\t'
  else if c = 'r' then some '\r'
  else if c = 'b' then some '\x08'
  else if c = 'f' then some '\x0c'
  else Option.none

def parseJsonString : Str → Option (Str × Str)
  | [] => Option.none
  | '"' :: rest => some ([], rest)
  | '\\' :: rest =>
    match rest with
    | [] => Option.none
    | e :: rest2 =>
      match jsonEscape e with
      | some c => (parseJsonString rest2).map (fun p => (c :: p.1, p.2))
      | Option.none => Option.none
  | c :: rest =>
    if c.toNat < 32 then Option.none
    else (parseJsonString rest).map (fun p => (c :: p.1, p.2))

def parseJsonNumber (s : Str) : Option (Int × Str) :=
  let neg : Bool := match s with | '-' :: _ => true | _ => false
  let s1 := match s with | '-' :: r => r | _ => s
  let ds := s1.takeWhile isAsciiDigit
  let rest := s1.dropWhile isAsciiDigit
  if ds.isEmpty then Option.none
  else if ds.length > 1 && ds.head? == some '0' then Option.none
  else
    match rest with
    | '.' :: _ => Option.none
    | 'e' :: _ => Option.none
    | 'E' :: _ => Option.none
    | _ =>
      let n : Nat := ds.foldl (fun a c => a * 10 + (c.toNat - 48)) 0
      some (if neg then -(n : Int) else (n : Int), rest)

mutual

def parseJsonValue : Nat → Str → Option (PyVal × Str)
  | 0, _ => Option.none
  | fuel + 1, s =>
    match jsonSkipWs s with
    | [] => Option.none
    | '"' :: rest => (parseJsonString rest).map (fun p => (PyVal.str p.1, p.2))
    | '\x7b' :: rest =>
      match jsonSkipWs rest with
      | '\x7d' :: rest2 => some (PyVal.dict [], rest2)
      | _ => (parseJsonMembers fuel rest).map (fun p => (PyVal.dict p.1, p.2))
    | '[' :: rest =>
      match jsonSkipWs rest with
      | ']' :: rest2 => some (PyVal.list [], rest2)
      | _ => (parseJsonElems fuel rest).map (fun p => (PyVal.list p.1, p.2))
    | 't' :: rest =>
      if ("rue".data).isPrefixOf rest then some (PyVal.bool true, rest.drop 3) else Option.none
    | 'f' :: rest =>
      if ("alse".data).isPrefixOf rest then some (PyVal.bool false, rest.drop 4) else Option.none
    | 'n' :: rest =>
      if ("ull".data).isPrefixOf rest then some (PyVal.none, rest.drop 3) else Option.none
    | s' => (parseJsonNumber s').map (fun p => (PyVal.int p.1, p.2))

def parseJsonMembers : Nat → Str → Option (List (Str × PyVal) × Str)
  | 0, _ => Option.none
  | fuel + 1, s =>
    match jsonSkipWs s with
    | '"' :: rest =>
      match parseJsonString rest with
      | some (key, r1) =>
        match jsonSkipWs r1 with
        | ':' :: r2 =>
          match parseJsonValue fuel r2 with
          | some (v, r3) =>
            match jsonSkipWs r3 with
            | ',' :: r4 => (parseJsonMembers fuel r4).map (fun p => ((key, v) :: p.1, p.2))
            | '\x7d' :: r4 => some ([(key, v)], r4)
            | _ => Option.none
          | Option.none => Option.none
        | _ => Option.none
      | Option.none => Option.none
    | _ => Option.none

def parseJsonElems : Nat → Str → Option (List PyVal × Str)
  | 0, _ => Option.none
  | fuel + 1, s =>
    match parseJsonValue fuel s with
    | some (v, r1) =>
      match jsonSkipWs r1 with
      | ',' :: r2 => (parseJsonElems fuel r2).map (fun p => (v :: p.1, p.2))
      | ']' :: r2 => some ([v], r2)
      | _ => Option.none
    | Option.none => Option.none

end

/-- The model of `json.loads`: parse one JSON value and require only
whitespace to remain. -/
def jsonLoads (s : Str) : Option PyVal :=
  match parseJsonValue (s.length + 1) s with
  | some (v, rest) => if (jsonSkipWs rest).isEmpty then some v else Option.none
  | Option.none => Option.none

example : jsonLoads ("\x7b\"a\": 1\x7d".data) = some (PyVal.dict [("a".data, PyVal.int 1)]) := by
  rfl

example : jsonLoads ("hello world".data) = Option.none := by rfl

example : jsonLoads ("null".data) = some PyVal.none := by rfl

example : jsonLoads (" [1, \"x\"] ".data)
    = some (PyVal.list [PyVal.int 1, PyVal.str ("x".data)]) := by rfl

example : jsonLoads ("\x7b\"a\": 1".data) = Option.none := by rfl

/-! ### `DocumentExtractor._parse_json_response` (extractor.py:281) -/

def jsonFenceMarker : Str := "```json".data

def fenceMarker : Str := "```".data

/-- The two exceptions `_parse_json_response` can raise: a
`json.JSONDecodeError` escaping from one of the candidate `json.loads`
calls in the fallback branches, or the final
`ValueError("Could not parse JSON from response")`. -/
inductive ParseRaise where
  | jsonDecodeError
  | valueErrorNoJson
  deriving DecidableEq

/-- Embeds `_parse_json_response`, parameterized by the JSON decoder `jl`
(Python's `json.loads`, which returns a parsed value or fails). -/
def parse_json_response (jl : Str → Option PyVal) (response_text : Str) :
    Except ParseRaise PyVal :=
  match jl response_text with
  | some v => .ok v
  | Option.none =>
    if containsSub response_text jsonFenceMarker then
      let json_start : Nat := (pyFind response_text jsonFenceMarker 0).toNat + 7
      let json_end : Int := pyFind response_text fenceMarker json_start
      let json_text := pyStrip (pySlice response_text json_start json_end)
      match jl json_text with
      | some v => .ok v
      | Option.none => .error .jsonDecodeError
    else if containsSub response_text fenceMarker then
      let json_start : Nat := (pyFind response_text fenceMarker 0).toNat + 3
      let json_end : Int := pyFind response_text fenceMarker json_start
      let json_text := pyStrip (pySlice response_text json_start json_end)
      match jl json_text with
      | some v => .ok v
      | Option.none => .error .jsonDecodeError
    else if containsSub response_text ['\x7b'] && containsSub response_text ['\x7d'] then
      let json_start : Nat := (pyFind response_text ['\x7b'] 0).toNat
      let json_end : Int := pyRFindChar response_text '\x7d' + 1
      let json_text := pySlice response_text json_start json_end
      match jl json_text with
      | some v => .ok v
      | Option.none => .error .jsonDecodeError
    else .error .valueErrorNoJson

/-- What `_call_moondream_api`'s exception handlers (extractor.py:259-279)
turn a raise from `_parse_json_response` into:

* `json.JSONDecodeError` hits the dedicated handler (lines 264-266), whose
  message carries `answer_text[:500]` as a preview;
* the `ValueError` hits the generic `except Exception` handler (lines
  267-279), whose message is built from `str(e)` (and a traceback) only —
  it carries no preview of the response text. -/
inductive ApiErrorKind where
  | jsonDecodeWithPreview (preview : Str)
  | genericApiError (msg : Str)
  deriving DecidableEq

def couldNotParseMsg : Str := "Could not parse JSON from response".data

def wrap_parse_exception (answer_text : Str) (e : ParseRaise) : ApiErrorKind :=
  match e with
  | .jsonDecodeError =>
    .jsonDecodeWithPreview
      (if answer_text.isEmpty then ("No answer text".data) else answer_text.take 500)
  | .valueErrorNoJson => .genericApiError couldNotParseMsg

/-! Spec-side restatement of the recovery algorithm, written from the
amended claim, for the refinement comparison with `parse_json_response`. -/

/-- The trimmed candidate between the end of the opening marker (at index
`mIdx`, of length `markerLen`) and the next fence; if no fence follows, the
candidate runs to the end of the text excluding its final character. -/
def specFencedCandidate (t : Str) (markerLen mIdx : Nat) : Str :=
  let rest := t.drop (mIdx + markerLen)
  match findSubIdx rest fenceMarker with
  | some j => pyStrip (rest.take j)
  | Option.none => pyStrip (rest.take (rest.length - 1))

def firstCharIdx (t : Str) (c : Char) : Nat := t.findIdx (fun d => decide (d = c))

def lastCharIdx (t : Str) (c : Char) : Nat :=
  t.length - 1 - t.reverse.findIdx (fun d => decide (d = c))

/-- The candidate from the first `\x7b` through the last `\x7d`, untrimmed. -/
def specBraceCandidate (t : Str) : Str :=
  (t.take (lastCharIdx t '\x7d' + 1)).drop (firstCharIdx t '\x7b')

def specTryCandidate (jl : Str → Option PyVal) (c : Str) : Except ParseRaise PyVal :=
  match jl c with
  | some v => .ok v
  | Option.none => .error .jsonDecodeError

/-- The recovery order of the amended claim: direct parse; else the
` ```json `-fenced candidate; else the plain-fenced candidate; else the
greedy brace candidate; else fail with the `ValueError` (no preview). -/
def parse_recovery_spec (jl : Str → Option PyVal) (t : Str) : Except ParseRaise PyVal :=
  match jl t with
  | some v => .ok v
  | Option.none =>
    if (findSubIdx t jsonFenceMarker).isSome then
      specTryCandidate jl (specFencedCandidate t 7 ((findSubIdx t jsonFenceMarker).getD 0))
    else if (findSubIdx t fenceMarker).isSome then
      specTryCandidate jl (specFencedCandidate t 3 ((findSubIdx t fenceMarker).getD 0))
    else if decide ('\x7b' ∈ t) && decide ('\x7d' ∈ t) then
      specTryCandidate jl (specBraceCandidate t)
    else .error .valueErrorNoJson

example :
    parse_json_response jsonLoads ("prose ```json\n\x7b\"a\": 1\x7d\n``` more".data)
      = .ok (PyVal.dict [("a".data, PyVal.int 1)]) := by rfl

example :
    parse_json_response jsonLoads ("blah \x7bnot json\x7d \x7b\"a\": 1\x7d".data)
      = .error .jsonDecodeError := by rfl

example :
    parse_json_response jsonLoads ("pre \x7b\"a\": 1\x7d post".data)
      = .ok (PyVal.dict [("a".data, PyVal.int 1)]) := by rfl

example :
    parse_json_response jsonLoads ("hello world".data) = .error .valueErrorNoJson := by rfl

/-! ### `app/utils/prompts.py` -/

/-- Stand-in for `PAN_EXTRACTION_PROMPT` (prompts.py:5).  The literal
instruction text is a fixed non-empty string whose content is never
inspected by the pipeline (only its emptiness is tested), so it is
abbreviated here. -/
def PAN_EXTRACTION_PROMPT : Str := "Analyze this PAN card image ...".data

/-- Stand-in for `AADHAAR_EXTRACTION_PROMPT` (prompts.py:32), abbreviated
for the same reason. -/
def AADHAAR_EXTRACTION_PROMPT : Str := "Analyze this Aadhaar card image ...".data

/-- Embeds `get_extraction_prompt` (prompts.py:63): dict lookup on the lowercased
document type, with `""` as the default. -/
def get_extraction_prompt (document_type : Str) : Str :=
  if pyLower document_type = panTag then PAN_EXTRACTION_PROMPT
  else if pyLower document_type = aadhaarTag then AADHAAR_EXTRACTION_PROMPT
  else []

/-! ### `DocumentExtractor.extract_from_image` (extractor.py:115)

External effects (the filesystem, the clock, and the Moondream network
call) are modelled by an explicit environment.  `_call_moondream_api` is
modelled by its outcome: either the parsed JSON value it returns or the
message of the exception it raises.  The settings flags are those of
`app/core/config.py` (both validation flags default to `True`);
`_save_extraction_result` swallows every exception internally
(extractor.py:327-342), so it cannot affect the returned result and is
not modelled. -/

structure PipelineEnv where
  /-- Embeds `Path(image_path).exists()` -/
  fileExists : Bool
  /-- Embeds `image_path_obj.stat().st_size` -/
  fileSize : Nat
  /-- outcome of `self._call_moondream_api(image_path, prompt)` -/
  apiOutcome : Except Str PyVal
  /-- Embeds `settings.VALIDATE_PAN_FORMAT` (default `True`) -/
  validatePan : Bool
  /-- Embeds `settings.VALIDATE_AADHAAR_FORMAT` (default `True`) -/
  validateAadhaar : Bool
  /-- Embeds `datetime.now().isoformat()` at result-assembly time -/
  processedAt : Str
  /-- Embeds `(time.time() - start_time) * 1000`, rounded, at result-assembly time -/
  elapsedMs : Nat

/-- Embeds `settings.MOONDREAM_MODEL` default (config.py:28); it is non-empty, so
`self.model_name if self.model_name else "moondream-station"` yields it. -/
def modelVersionDefault : Str := "moondream2".data

/-- The `metadata` dict of an `ExtractionResult`; `Option.none` models an
absent key. -/
structure ExtractionMetadata where
  processed_at : Option Str
  processing_time_ms : Option Nat
  model_version : Option Str
  /-- key always present; the value itself is `None` or a string -/
  original_filename : Option Str
  file_size_bytes : Option Nat

/-- The result dict assembled by `extract_from_image` (and by the batch
endpoints' inline error dicts).  In the success dict the `error` key is
absent (`Option.none`); in the error dict `data` is `None`. -/
structure ExtractionResponse where
  status : Str
  document_type : Str
  data : PyVal
  metadata : ExtractionMetadata
  error : Option Str

instance : Inhabited ExtractionResponse :=
  ⟨⟨[], [], PyVal.none, ⟨Option.none, Option.none, Option.none, Option.none, Option.none⟩,
    Option.none⟩⟩

def successStatus : Str := "success".data

def errorStatus : Str := "error".data

/-- Duck-typed application of `validate_extracted_data` to an arbitrary
parsed JSON value, as the pipeline does: a non-dict has no usable
`.copy()`/item assignment, so `data.copy()` raises `AttributeError` for
scalars and `None`, and a list survives `.copy()` and the membership test
but raises `TypeError` at the string-keyed item assignment. -/
def validate_any (v : PyVal) (document_type : Str) : Except PyExn PyVal :=
  match v with
  | .dict d => (validate_extracted_data d document_type).map PyVal.dict
  | .list _ => .error .typeError
  | _ => .error .attributeError

def pyExnMsg : PyExn → Str
  | .attributeError => "AttributeError".data
  | .typeError => "TypeError".data

/-- The `try` body of `extract_from_image` (extractor.py:134-176), up to
result assembly: each raise is an `Except.error` carrying `str(e)`. -/
def extract_steps (env : PipelineEnv) (image_path document_type : Str) :
    Except Str (PyVal × Nat) :=
  if (get_extraction_prompt document_type).isEmpty then
    .error ("Unknown document type: ".data ++ document_type)
  else if !env.fileExists then
    .error ("Image file not found: ".data ++ image_path)
  else
    match env.apiOutcome with
    | .error e => .error e
    | .ok extracted =>
      if env.validatePan || env.validateAadhaar then
        match validate_any extracted document_type with
        | .ok v => .ok (v, env.fileSize)
        | .error ex => .error (pyExnMsg ex)
      else .ok (extracted, env.fileSize)

/-- Embeds `extract_from_image`: the outer `try/except Exception` converts any
raise from the steps into an error-status result dict (extractor.py:178-190).
Note the error branch's metadata carries only `processed_at`,
`processing_time_ms` and `original_filename`. -/
def extract_from_image (env : PipelineEnv) (image_path document_type : Str)
    (original_filename : Option Str) : ExtractionResponse :=
  match extract_steps env image_path document_type with
  | .ok (v, size) =>
    { status := successStatus
      document_type := document_type
      data := v
      metadata :=
        { processed_at := some env.processedAt
          processing_time_ms := some env.elapsedMs
          model_version := some modelVersionDefault
          original_filename := original_filename
          file_size_bytes := some size }
      error := Option.none }
  | .error msg =>
    { status := errorStatus
      document_type := document_type
      data := PyVal.none
      metadata :=
        { processed_at := some env.processedAt
          processing_time_ms := some env.elapsedMs
          model_version := Option.none
          original_filename := original_filename
          file_size_bytes := Option.none }
      error := some msg }

/-! ### `app/api/endpoints/batch.py`

`save_upload_file` (an upload-staging collaborator in extract.py) is
modelled by its per-file outcome: the saved path, or the message of the
exception it raises.  The extraction call is modelled by a function from
(saved path, original filename) to the result dict; `extract_from_image`
never raises (it is total, see `extract_from_image`), so the
`try/except` around the extraction calls and the dead `except` branch of
the `as_completed` extraction loop have no model.  `cleanup_file` runs in
`finally` and does not affect the response. -/

structure BatchFile where
  filename : Str
  /-- outcome of `save_upload_file(file)`: saved path, or exception text -/
  saveOutcome : Except Str Str

instance : Inhabited BatchFile := ⟨⟨[], Except.error []⟩⟩

/-- Embeds `datetime.now().isoformat()` in the batch endpoints' inline error
dicts, modelled as a fixed token. -/
def batchNow : Str := "now".data

/-- The inline error dict of the sequential endpoint's save loop
(batch.py:51-60); note the `"Error saving file: "` prefix and the absence
of `processing_time_ms`. -/
def seqSaveErrorResult (dt filename msg : Str) : ExtractionResponse :=
  { status := errorStatus
    document_type := dt
    data := PyVal.none
    metadata :=
      { processed_at := some batchNow
        processing_time_ms := Option.none
        model_version := Option.none
        original_filename := some filename
        file_size_bytes := Option.none }
    error := some ("Error saving file: ".data ++ msg) }

/-- The inline error dict the async endpoint builds for a failed save
(batch.py:186-195); here the raw exception text is used. -/
def asyncSaveErrorResult (dt filename msg : Str) : ExtractionResponse :=
  { status := errorStatus
    document_type := dt
    data := PyVal.none
    metadata :=
      { processed_at := some batchNow
        processing_time_ms := Option.none
        model_version := Option.none
        original_filename := some filename
        file_size_bytes := Option.none }
    error := some msg }

structure BatchExtractionResponse where
  status : Str
  total_documents : Nat
  successful : Nat
  failed : Nat
  results : List ExtractionResponse
  processing_time_ms : Nat

def mixedStatus : Str := "partial".data

/-- The statistics/overall-status fold shared verbatim by both endpoints
(batch.py:84-103 and 197-217). -/
def batch_stats (results : List ExtractionResponse) (elapsed : Nat) :
    BatchExtractionResponse :=
  let successful := results.countP (fun r => decide (r.status = successStatus))
  let failed := results.length - successful
  let status :=
    if successful = results.length then successStatus
    else if 0 < successful then mixedStatus
    else errorStatus
  ⟨status, results.length, successful, failed, results, elapsed⟩

/-- Embeds `batch_extract` (batch.py:19-108), the sequential endpoint.  Loop one
saves each file in input order, appending an error dict on failure to
`results` and a `(path, filename)` pair on success to `file_paths`; loop
two extracts the saved files in order, appending to `results`. -/
def batch_extract (extractf : Str → Str → ExtractionResponse) (dt : Str)
    (files : List BatchFile) (elapsed : Nat) : Except Str BatchExtractionResponse :=
  if files.isEmpty then .error ("No files provided".data)
  else if 50 < files.length then .error ("Too many files. Maximum 50 files per batch".data)
  else
    let phase1 :=
      files.foldl
        (fun (acc : List ExtractionResponse × List (Str × Str)) f =>
          match f.saveOutcome with
          | .ok path => (acc.1, acc.2 ++ [(path, f.filename)])
          | .error e => (acc.1 ++ [seqSaveErrorResult dt f.filename e], acc.2))
        ([], [])
    let results := phase1.2.foldl (fun rs pf => rs ++ [extractf pf.1 pf.2]) phase1.1
    .ok (batch_stats results elapsed)

/-- One iteration record of the async save loop (batch.py:145-151): the
awaited task's outcome paired — by the `enumerate` index, not the task's
own index — with `files[i].filename`. -/
inductive SavedEntry where
  | saved (path filename : Str)
  | failed (filename msg : Str)

/-- The iteration records of the async save loop (batch.py:145-151) for a
given completion order: `asyncio.as_completed` yields the save tasks in a
completion order (position `i` of `saveOrder` is the index of the task
that completes `i`-th), but the loop body uses `files[i]` with the
`enumerate` counter `i`. -/
def asyncEntries (files : List BatchFile) (saveOrder : List Nat) : List SavedEntry :=
  saveOrder.enum.map (fun p =>
    match (files.getD p.2 default).saveOutcome with
    | .ok path => SavedEntry.saved path (files.getD p.1 default).filename
    | .error e => SavedEntry.failed (files.getD p.1 default).filename e)

/-- The `file_paths` list the async endpoint extracts from. -/
def asyncFilePaths (files : List BatchFile) (saveOrder : List Nat) : List (Str × Str) :=
  (asyncEntries files saveOrder).filterMap (fun en =>
    match en with
    | .saved p fn => some (p, fn)
    | .failed _ _ => Option.none)

/-- The error dicts appended for failed saves (batch.py:182-195). -/
def asyncFailResults (dt : Str) (files : List BatchFile) (saveOrder : List Nat) :
    List ExtractionResponse :=
  (asyncEntries files saveOrder).filterMap (fun en =>
    match en with
    | .failed fn e => some (asyncSaveErrorResult dt fn e)
    | .saved _ _ => Option.none)

/-- Embeds `batch_extract_async` (batch.py:112-222), the concurrent endpoint.
The save tasks complete in order `saveOrder` and the extraction tasks in
order `extractOrder` (each a permutation of the respective index range). -/
def batch_extract_async (extractf : Str → Str → ExtractionResponse) (dt : Str)
    (files : List BatchFile) (saveOrder extractOrder : List Nat) (elapsed : Nat) :
    Except Str BatchExtractionResponse :=
  if files.isEmpty then .error ("No files provided".data)
  else if 50 < files.length then .error ("Too many files. Maximum 50 files per batch".data)
  else
    .ok (batch_stats
      (extractOrder.map (fun j =>
          ((asyncFilePaths files saveOrder).map (fun pf => extractf pf.1 pf.2)).getD j default)
        ++ asyncFailResults dt files saveOrder)
      elapsed)

/-! ### Whitespace-ends toolkit

Several validator facts hinge on whether a cleaned string still has
whitespace at its ends (Python strips string ends once per cleaning pass,
and hyphen removal can expose fresh whitespace there). -/

/-- Neither end of `s` is Python whitespace. -/
def noWsEnds (s : Str) : Prop :=
  (∀ c, s.head? = some c → isPyWhitespace c = false) ∧
  (∀ c, s.reverse.head? = some c → isPyWhitespace c = false)

theorem head?_dropWhile_not (p : Char → Bool) (l : Str) :
    ∀ c, (l.dropWhile p).head? = some c → p c = false := by
  induction l with
  | nil => intro c h; simp [List.dropWhile] at h
  | cons a t ih =>
    intro c h
    by_cases hpa : p a = true
    · rw [List.dropWhile_cons, if_pos hpa] at h
      exact ih c h
    · rw [List.dropWhile_cons, if_neg hpa] at h
      simp only [List.head?_cons, Option.some.injEq] at h
      rw [← h]
      exact Bool.eq_false_iff.mpr hpa

theorem getLast?_dropWhile (p : Char → Bool) (l : Str) (h : ¬ (l.dropWhile p = [])) :
    (l.dropWhile p).getLast? = l.getLast? := by
  induction l with
  | nil => simp [List.dropWhile] at h
  | cons a t ih =>
    by_cases hpa : p a = true
    · have hdw : (a :: t).dropWhile p = t.dropWhile p := by
        rw [List.dropWhile_cons, if_pos hpa]
      rw [hdw] at h ⊢
      rw [ih h]
      cases t with
      | nil => simp [List.dropWhile] at h
      | cons b u => rw [List.getLast?_cons_cons]
    · rw [List.dropWhile_cons, if_neg hpa]

theorem dropWhile_eq_self_of_head (p : Char → Bool) (l : Str)
    (h : ∀ c, l.head? = some c → p c = false) : l.dropWhile p = l := by
  cases l with
  | nil => simp [List.dropWhile]
  | cons a t =>
    have ha := h a (by simp)
    rw [List.dropWhile_cons, if_neg (by simp [ha])]

theorem pyStrip_noWsEnds (s : Str) : noWsEnds (pyStrip s) := by
  constructor
  · intro c hc
    unfold pyStrip at hc
    rw [List.head?_reverse] at hc
    by_cases hnil : ((s.dropWhile isPyWhitespace).reverse.dropWhile isPyWhitespace) = []
    · rw [hnil] at hc
      simp at hc
    · rw [getLast?_dropWhile _ _ hnil, List.getLast?_reverse] at hc
      exact head?_dropWhile_not _ _ c hc
  · intro c hc
    unfold pyStrip at hc
    rw [List.reverse_reverse] at hc
    exact head?_dropWhile_not _ _ c hc

theorem noWsEnds_strip_id {s : Str} (h : noWsEnds s) : pyStrip s = s := by
  unfold pyStrip
  rw [dropWhile_eq_self_of_head _ _ h.1, dropWhile_eq_self_of_head _ _ h.2,
    List.reverse_reverse]

theorem strip_eq_self_iff_noWsEnds (s : Str) : pyStrip s = s ↔ noWsEnds s := by
  constructor
  · intro h
    have := pyStrip_noWsEnds s
    rwa [h] at this
  · exact noWsEnds_strip_id

theorem noWsHead_filter {p : Char → Bool}
    (hp : ∀ c, isPyWhitespace c = false → p c = true) {l : Str}
    (h : ∀ c, l.head? = some c → isPyWhitespace c = false) :
    ∀ c, (l.filter p).head? = some c → isPyWhitespace c = false := by
  induction l with
  | nil => intro c hc; simp [List.filter] at hc
  | cons a t ih =>
    have ha := h a (by simp)
    intro c hc
    rw [List.filter_cons, if_pos (by simp [hp a ha])] at hc
    simp only [List.head?_cons, Option.some.injEq] at hc
    rw [← hc]
    exact ha

theorem noWsEnds_filter {p : Char → Bool}
    (hp : ∀ c, isPyWhitespace c = false → p c = true) {l : Str} (h : noWsEnds l) :
    noWsEnds (l.filter p) := by
  constructor
  · exact noWsHead_filter hp h.1
  · intro c hc
    rw [← List.filter_reverse] at hc
    exact noWsHead_filter hp h.2 c hc

theorem noWsEnds_map_upper {l : Str} (h : noWsEnds l) : noWsEnds (l.map upperChar) := by
  constructor
  · intro c hc
    rw [List.head?_map] at hc
    cases hl : l.head? with
    | none => rw [hl] at hc; simp at hc
    | some a =>
      rw [hl] at hc
      simp only [Option.map_some', Option.some.injEq] at hc
      rw [← hc]
      exact upperChar_not_ws (h.1 a hl)
  · intro c hc
    rw [← List.map_reverse, List.head?_map] at hc
    cases hl : l.reverse.head? with
    | none => rw [hl] at hc; simp at hc
    | some a =>
      rw [hl] at hc
      simp only [Option.map_some', Option.some.injEq] at hc
      rw [← hc]
      exact upperChar_not_ws (h.2 a hl)

theorem space_ws : isPyWhitespace ' ' = true := by decide

theorem newline_ws : isPyWhitespace '\n' = true := by decide

/-! ### Cleaning lemmas for PAN -/

theorem nonspace_of_not_ws : ∀ c, isPyWhitespace c = false → (decide ¬ (c = ' ')) = true := by
  intro c h
  simp only [decide_eq_true_eq]
  intro hc
  rw [hc] at h
  exact absurd h (by decide)

theorem noWsEnds_nil : noWsEnds ([] : Str) :=
  ⟨fun c hc => by simp at hc, fun c hc => by simp at hc⟩

theorem noWsEnds_clean_pan (x : Str) : noWsEnds (clean_pan_number x) := by
  unfold clean_pan_number
  by_cases hx : x.isEmpty = true
  · rw [if_pos hx]
    exact noWsEnds_nil
  · rw [if_neg hx]
    exact noWsEnds_filter nonspace_of_not_ws (noWsEnds_map_upper (pyStrip_noWsEnds x))

theorem map_fixed_of_mem {f : Char → Char} {l : Str} (h : ∀ a, a ∈ l → f a = a) :
    l.map f = l := by
  induction l with
  | nil => rfl
  | cons a t ih =>
    rw [List.map_cons, h a (by simp), ih (fun b hb => h b (List.mem_cons_of_mem a hb))]

theorem pyUpper_clean_pan (x : Str) : pyUpper (clean_pan_number x) = clean_pan_number x := by
  unfold clean_pan_number
  by_cases hx : x.isEmpty = true
  · rw [if_pos hx]; rfl
  · rw [if_neg hx]
    apply map_fixed_of_mem
    intro a ha
    have ha2 : a ∈ pyUpper (pyStrip x) := List.mem_of_mem_filter ha
    obtain ⟨b, _, rfl⟩ := List.mem_map.mp ha2
    exact upperChar_upperChar b

theorem filter_idem (p : Char → Bool) (l : Str) : (l.filter p).filter p = l.filter p :=
  List.filter_eq_self.mpr (fun _ ha => List.of_mem_filter ha)

theorem removeAll_clean_pan (x : Str) :
    removeAll ' ' (clean_pan_number x) = clean_pan_number x := by
  unfold clean_pan_number
  by_cases hx : x.isEmpty = true
  · rw [if_pos hx]; rfl
  · rw [if_neg hx]
    exact filter_idem _ _

theorem reMatchFull_of_noWsEnds (body : Str → Bool) {s : Str} (h : noWsEnds s) :
    reMatchFull body s = body s := by
  unfold reMatchFull
  cases hl : s.getLast? with
  | none => simp [hl]
  | some c =>
    have hc : isPyWhitespace c = false := h.2 c (by rw [List.head?_reverse]; exact hl)
    have : ¬ (c = '\n') := by
      intro hcc
      rw [hcc] at hc
      exact absurd hc (by decide)
    simp [hl, this]

/-- The validity bit `validate_pan_format` computes on an already-cleaned
PAN is exactly the regex body on that value. -/
theorem validate_pan_format_clean (x : Str) :
    (validate_pan_format (clean_pan_number x)).1 = panRegexBody (clean_pan_number x) := by
  by_cases h0 : clean_pan_number x = []
  · rw [h0]; decide
  · unfold validate_pan_format
    rw [if_neg (by simp [List.isEmpty_iff, h0])]
    have hsu : pyUpper (pyStrip (clean_pan_number x)) = clean_pan_number x := by
      rw [noWsEnds_strip_id (noWsEnds_clean_pan x), pyUpper_clean_pan]
    rw [hsu, reMatchFull_of_noWsEnds _ (noWsEnds_clean_pan x)]
    by_cases hb : panRegexBody (clean_pan_number x) = true
    · rw [if_pos hb, hb]
    · rw [if_neg hb]
      simp [Bool.eq_false_iff.mpr hb]

/-- The function `clean_pan_number` fixes any non-empty string that is already stripped,
uppercased and space-free. -/
theorem clean_pan_eq_self {s : Str} (h0 : ¬ s = []) (hn : noWsEnds s)
    (hu : pyUpper s = s) (hf : removeAll ' ' s = s) : clean_pan_number s = s := by
  unfold clean_pan_number
  rw [if_neg (by simp [List.isEmpty_iff, h0]), noWsEnds_strip_id hn, hu, hf]

/-- The function `clean_pan_number` is idempotent. -/
theorem clean_pan_number_idem (x : Str) :
    clean_pan_number (clean_pan_number x) = clean_pan_number x := by
  by_cases h0 : clean_pan_number x = []
  · rw [h0]; rfl
  · exact clean_pan_eq_self h0 (noWsEnds_clean_pan x) (pyUpper_clean_pan x)
      (removeAll_clean_pan x)

/-! ### Cleaning lemmas for Aadhaar

`aadhaarCleanRaw` is not guaranteed to be stripped: removing `-` (a
non-whitespace character) can expose whitespace at the ends that only a
second `strip()` would remove.  The lemmas below therefore take
`noWsEnds (aadhaarCleanRaw x)` as a hypothesis where it matters. -/

theorem mem_aadhaarCleanRaw_not_space {x : Str} {a : Char} (ha : a ∈ aadhaarCleanRaw x) :
    (decide ¬ (a = ' ')) = true := by
  unfold aadhaarCleanRaw removeAll at ha
  have h1 := (List.mem_filter.mp ha).1
  exact (List.mem_filter.mp h1).2

theorem mem_aadhaarCleanRaw_not_hyphen {x : Str} {a : Char} (ha : a ∈ aadhaarCleanRaw x) :
    (decide ¬ (a = '-')) = true := by
  unfold aadhaarCleanRaw removeAll at ha
  exact (List.mem_filter.mp ha).2

theorem removeAll_eq_self_of_mem {c : Char} {l : Str}
    (h : ∀ a ∈ l, (decide ¬ (a = c)) = true) : removeAll c l = l :=
  List.filter_eq_self.mpr h

theorem group_pieces (c : Str) : (c.take 4 ++ (c.drop 4).take 4) ++ c.drop 8 = c := by
  have h1 : (c.drop 4).drop 4 = c.drop 8 := by rw [List.drop_drop]
  rw [List.append_assoc, ← h1, List.take_append_drop, List.take_append_drop]

/-- Removing spaces from the grouped form recovers the (space-free) raw
cleaned value. -/
theorem removeAll_space_aadhaarGroup (x : Str) :
    removeAll ' ' (aadhaarGroup (aadhaarCleanRaw x)) = aadhaarCleanRaw x := by
  unfold aadhaarGroup removeAll
  rw [List.filter_append, List.filter_append, List.filter_cons, List.filter_cons]
  rw [if_neg (by simp), if_neg (by simp)]
  rw [List.filter_eq_self.mpr
    (fun a ha => mem_aadhaarCleanRaw_not_space (List.mem_of_mem_take ha))]
  rw [List.filter_eq_self.mpr
    (fun a ha =>
      mem_aadhaarCleanRaw_not_space (List.mem_of_mem_drop (List.mem_of_mem_take ha)))]
  rw [List.filter_eq_self.mpr
    (fun a ha => mem_aadhaarCleanRaw_not_space (List.mem_of_mem_drop ha))]
  exact group_pieces _

theorem aadhaarGroup_head? {c : Str} (hlen : c.length = 12) :
    (aadhaarGroup c).head? = c.head? := by
  cases c with
  | nil => simp at hlen
  | cons a rest => rfl

theorem aadhaarGroup_getLast? {c : Str} (hlen : c.length = 12) :
    (aadhaarGroup c).getLast? = c.getLast? := by
  have hd : ¬ (c.drop 8 = []) := by
    intro h
    have := congrArg List.length h
    rw [List.length_drop, hlen] at this
    simp at this
  unfold aadhaarGroup
  rw [List.getLast?_append_of_ne_nil _ (by simp)]
  rw [show (' ' :: c.drop 8) = [' '] ++ c.drop 8 from rfl]
  rw [List.getLast?_append_of_ne_nil _ hd]
  rw [List.getLast?_drop, if_neg (by omega)]

theorem noWsEnds_aadhaarGroup {x : Str} (H : noWsEnds (aadhaarCleanRaw x))
    (hlen : (aadhaarCleanRaw x).length = 12) :
    noWsEnds (aadhaarGroup (aadhaarCleanRaw x)) := by
  constructor
  · intro c hc
    rw [aadhaarGroup_head? hlen] at hc
    exact H.1 c hc
  · intro c hc
    rw [List.head?_reverse, aadhaarGroup_getLast? hlen] at hc
    exact H.2 c (by rw [List.head?_reverse]; exact hc)

/-- The shape of `clean_aadhaar_number` on a non-empty input. -/
theorem clean_aadhaar_shape {s : Str} (h0 : ¬ s = []) :
    clean_aadhaar_number s =
      if (aadhaarCleanRaw s).length == 12 then aadhaarGroup (aadhaarCleanRaw s)
      else aadhaarCleanRaw s := by
  unfold clean_aadhaar_number
  rw [if_neg (by simp [List.isEmpty_iff, h0])]

theorem aadhaarCleanRaw_nil : aadhaarCleanRaw [] = [] := by decide

/-- The value `clean_aadhaar_number x` is empty exactly when the raw cleaned value
is empty. -/
theorem clean_aadhaar_eq_nil_iff (x : Str) :
    clean_aadhaar_number x = [] ↔ aadhaarCleanRaw x = [] := by
  by_cases h0 : x = []
  · subst h0
    simp [clean_aadhaar_number, aadhaarCleanRaw_nil]
  · rw [clean_aadhaar_shape h0]
    by_cases hlen : (aadhaarCleanRaw x).length == 12
    · rw [if_pos hlen]
      constructor
      · intro h
        have := congrArg List.length h
        unfold aadhaarGroup at this
        simp at this
      · intro h
        rw [h] at hlen
        simp at hlen
    · rw [if_neg hlen]

/-- Re-cleaning the cleaned-and-possibly-grouped value recovers the raw
cleaned value, provided the latter has no whitespace at its ends. -/
theorem aadhaarCleanRaw_clean (x : Str) (H : noWsEnds (aadhaarCleanRaw x)) :
    aadhaarCleanRaw (clean_aadhaar_number x) = aadhaarCleanRaw x := by
  by_cases h0 : x = []
  · subst h0
    simp [clean_aadhaar_number, aadhaarCleanRaw_nil]
  · rw [clean_aadhaar_shape h0]
    by_cases hlen : (aadhaarCleanRaw x).length = 12
    · rw [if_pos (by simp [hlen])]
      have e1 : aadhaarCleanRaw (aadhaarGroup (aadhaarCleanRaw x))
          = removeAll '-' (removeAll ' ' (pyStrip (aadhaarGroup (aadhaarCleanRaw x)))) := rfl
      rw [e1, noWsEnds_strip_id (noWsEnds_aadhaarGroup H hlen), removeAll_space_aadhaarGroup]
      exact removeAll_eq_self_of_mem (fun a ha => mem_aadhaarCleanRaw_not_hyphen ha)
    · rw [if_neg (by simp [hlen])]
      have e1 : aadhaarCleanRaw (aadhaarCleanRaw x)
          = removeAll '-' (removeAll ' ' (pyStrip (aadhaarCleanRaw x))) := rfl
      rw [e1, noWsEnds_strip_id H,
        removeAll_eq_self_of_mem (fun a ha => mem_aadhaarCleanRaw_not_space ha),
        removeAll_eq_self_of_mem (fun a ha => mem_aadhaarCleanRaw_not_hyphen ha)]

/-- The function `clean_aadhaar_number` is idempotent on inputs whose raw cleaned value
has no whitespace at its ends. -/
theorem clean_aadhaar_number_idem (x : Str) (H : noWsEnds (aadhaarCleanRaw x)) :
    clean_aadhaar_number (clean_aadhaar_number x) = clean_aadhaar_number x := by
  by_cases hnil : clean_aadhaar_number x = []
  · rw [hnil]; rfl
  · rw [clean_aadhaar_shape hnil, aadhaarCleanRaw_clean x H]
    by_cases h0 : x = []
    · exact absurd ((clean_aadhaar_eq_nil_iff x).mpr (by subst h0; exact aadhaarCleanRaw_nil))
        hnil
    · rw [clean_aadhaar_shape h0]

theorem noWsEnds_clean_aadhaar (x : Str) (H : noWsEnds (aadhaarCleanRaw x)) :
    noWsEnds (clean_aadhaar_number x) := by
  by_cases h0 : x = []
  · have e : clean_aadhaar_number x = [] := by subst h0; rfl
    rw [e]
    exact noWsEnds_nil
  · rw [clean_aadhaar_shape h0]
    by_cases hlen : (aadhaarCleanRaw x).length = 12
    · rw [if_pos (by simp [hlen])]
      exact noWsEnds_aadhaarGroup H hlen
    · rw [if_neg (by simp [hlen])]
      exact H

/-- The validity bit `validate_aadhaar_format` computes on the
cleaned-and-possibly-grouped value, provided the raw cleaned value has no
whitespace at its ends: the regex body on the raw cleaned value, minus the
fully-masked case. -/
theorem validate_aadhaar_format_clean (x : Str) (H : noWsEnds (aadhaarCleanRaw x)) :
    (validate_aadhaar_format (clean_aadhaar_number x)).1
      = (aadhaarRegexBody (aadhaarCleanRaw x)
          && !(decide (aadhaarCleanRaw x = List.replicate 12 'X'))) := by
  by_cases hnil : clean_aadhaar_number x = []
  · rw [hnil, (clean_aadhaar_eq_nil_iff x).mp hnil]
    decide
  · unfold validate_aadhaar_format
    rw [if_neg (by simp [List.isEmpty_iff, hnil])]
    rw [aadhaarCleanRaw_clean x H, reMatchFull_of_noWsEnds _ H]
    by_cases hb : aadhaarRegexBody (aadhaarCleanRaw x) = true
    · rw [hb, if_neg (by simp)]
      by_cases hrep : aadhaarCleanRaw x = List.replicate 12 'X'
      · rw [if_pos hrep]
        simp [hrep]
      · rw [if_neg hrep]
        rw [decide_eq_false hrep]
        rfl
    · have hb' : aadhaarRegexBody (aadhaarCleanRaw x) = false := Bool.eq_false_iff.mpr hb
      rw [hb', if_pos (by simp)]
      simp

/-! ### Branch lemmas for `validate_extracted_data` -/

theorem truthy_str_iff (s : Str) : truthy (PyVal.str s) = true ↔ ¬ (s = []) := by
  simp [truthy]

theorem validate_pan_absent (d : PyDict) (hx : dLookup d panKey = Option.none) :
    validate_extracted_data d panTag = .ok (dSet d panValidKey (.bool false)) := by
  unfold validate_extracted_data
  rw [if_pos rfl, hx]

theorem validate_pan_falsy (d : PyDict) (v : PyVal) (hx : dLookup d panKey = some v)
    (hv : truthy v = false) :
    validate_extracted_data d panTag = .ok (dSet d panValidKey (.bool false)) := by
  unfold validate_extracted_data
  rw [if_pos rfl, hx]
  simp [hv]

theorem validate_pan_str (d : PyDict) (x : Str) (hx : dLookup d panKey = some (.str x))
    (hne : ¬ (x = [])) :
    validate_extracted_data d panTag
      = .ok (dSet (dSet d panKey (.str (clean_pan_number x))) panValidKey
          (.bool (validate_pan_format (clean_pan_number x)).1)) := by
  unfold validate_extracted_data
  rw [if_pos rfl, hx]
  simp [truthy, hne]

theorem validate_aadhaar_absent (d : PyDict) (hx : dLookup d aadhaarKey = Option.none) :
    validate_extracted_data d aadhaarTag = .ok (dSet d aadhaarValidKey (.bool false)) := by
  unfold validate_extracted_data
  rw [if_neg (by decide), if_pos rfl, hx]

theorem validate_aadhaar_falsy (d : PyDict) (v : PyVal) (hx : dLookup d aadhaarKey = some v)
    (hv : truthy v = false) :
    validate_extracted_data d aadhaarTag = .ok (dSet d aadhaarValidKey (.bool false)) := by
  unfold validate_extracted_data
  rw [if_neg (by decide), if_pos rfl, hx]
  simp [hv]

theorem validate_aadhaar_str (d : PyDict) (x : Str)
    (hx : dLookup d aadhaarKey = some (.str x)) (hne : ¬ (x = [])) :
    validate_extracted_data d aadhaarTag
      = .ok (dSet (dSet d aadhaarKey (.str (clean_aadhaar_number x))) aadhaarValidKey
          (.bool (validate_aadhaar_format (clean_aadhaar_number x)).1)) := by
  unfold validate_extracted_data
  rw [if_neg (by decide), if_pos rfl, hx]
  simp [truthy, hne]

theorem validate_other (d : PyDict) (t : Str) (h1 : ¬ (t = panTag))
    (h2 : ¬ (t = aadhaarTag)) : validate_extracted_data d t = .ok d := by
  unfold validate_extracted_data
  rw [if_neg h1, if_neg h2]

theorem panKey_ne_panValidKey : ¬ (panKey = panValidKey) := by decide

theorem panValidKey_ne_panKey : ¬ (panValidKey = panKey) := by decide

theorem aadhaarKey_ne_aadhaarValidKey : ¬ (aadhaarKey = aadhaarValidKey) := by decide

theorem aadhaarValidKey_ne_aadhaarKey : ¬ (aadhaarValidKey = aadhaarKey) := by decide

/-! ### Claim C5 — PAN validation -/

/-- C5: for a mapping whose `pan_number` is a non-empty string `x`, the
validator succeeds, stores the trimmed/space-stripped/uppercased value, and
sets `pan_valid` exactly when that normalized value matches 5 uppercase
letters, 4 digits, 1 uppercase letter; for an empty or absent `pan_number`
it sets `pan_valid=false`, fabricates no value, and raises no exception. -/
theorem C5_pan_validation (d : PyDict) :
    (∀ x, dLookup d panKey = some (.str x) → ¬ (x = []) →
      ∃ r, validate_extracted_data d panTag = .ok r ∧
        dLookup r panKey = some (.str (removeAll ' ' (pyUpper (pyStrip x)))) ∧
        dLookup r panValidKey
          = some (.bool (panRegexBody (removeAll ' ' (pyUpper (pyStrip x)))))) ∧
    (dLookup d panKey = some (.str []) →
      validate_extracted_data d panTag = .ok (dSet d panValidKey (.bool false)) ∧
      dLookup (dSet d panValidKey (.bool false)) panKey = some (.str []) ∧
      dLookup (dSet d panValidKey (.bool false)) panValidKey = some (.bool false)) ∧
    (dLookup d panKey = Option.none →
      validate_extracted_data d panTag = .ok (dSet d panValidKey (.bool false)) ∧
      dLookup (dSet d panValidKey (.bool false)) panKey = Option.none ∧
      dLookup (dSet d panValidKey (.bool false)) panValidKey = some (.bool false)) := by
  refine ⟨fun x hx hne => ?_, fun hx => ?_, fun hx => ?_⟩
  · have hclean : clean_pan_number x = removeAll ' ' (pyUpper (pyStrip x)) := by
      unfold clean_pan_number
      rw [if_neg (by simp [List.isEmpty_iff, hne])]
    refine ⟨_, validate_pan_str d x hx hne, ?_, ?_⟩
    · rw [dLookup_dSet_other _ _ _ _ panKey_ne_panValidKey, dLookup_dSet_self, hclean]
    · rw [dLookup_dSet_self, validate_pan_format_clean, hclean]
  · exact ⟨validate_pan_falsy d _ hx (by simp [truthy]),
      by rw [dLookup_dSet_other _ _ _ _ panKey_ne_panValidKey]; exact hx,
      dLookup_dSet_self _ _ _⟩
  · exact ⟨validate_pan_absent d hx,
      by rw [dLookup_dSet_other _ _ _ _ panKey_ne_panValidKey]; exact hx,
      dLookup_dSet_self _ _ _⟩

/-- C5 witness: the claim's examples — `"ABCDE1234F"` valid and unchanged,
`"abc de1234f"` normalized to `"ABCDE1234F"` and valid, `"ABC123"` invalid,
and the empty-string case. -/
theorem C5_pan_validation_witness :
    (∃ r, validate_extracted_data [(panKey, PyVal.str ("ABCDE1234F".data))] panTag = .ok r ∧
      dLookup r panKey = some (.str ("ABCDE1234F".data)) ∧
      dLookup r panValidKey = some (.bool true)) ∧
    (∃ r, validate_extracted_data [(panKey, PyVal.str ("abc de1234f".data))] panTag = .ok r ∧
      dLookup r panKey = some (.str ("ABCDE1234F".data)) ∧
      dLookup r panValidKey = some (.bool true)) ∧
    (∃ r, validate_extracted_data [(panKey, PyVal.str ("ABC123".data))] panTag = .ok r ∧
      dLookup r panKey = some (.str ("ABC123".data)) ∧
      dLookup r panValidKey = some (.bool false)) ∧
    (validate_extracted_data [(panKey, PyVal.str [])] panTag
      = .ok [(panKey, PyVal.str []), (panValidKey, PyVal.bool false)]) := by
  refine ⟨?_, ?_, ?_, ?_⟩
  · obtain ⟨r, h1, h2, h3⟩ :=
      (C5_pan_validation [(panKey, PyVal.str ("ABCDE1234F".data))]).1 ("ABCDE1234F".data)
        rfl (by decide)
    exact ⟨r, h1, by rw [h2]; rfl, by rw [h3]; rfl⟩
  · obtain ⟨r, h1, h2, h3⟩ :=
      (C5_pan_validation [(panKey, PyVal.str ("abc de1234f".data))]).1 ("abc de1234f".data)
        rfl (by decide)
    exact ⟨r, h1, by rw [h2]; rfl, by rw [h3]; rfl⟩
  · obtain ⟨r, h1, h2, h3⟩ :=
      (C5_pan_validation [(panKey, PyVal.str ("ABC123".data))]).1 ("ABC123".data)
        rfl (by decide)
    exact ⟨r, h1, by rw [h2]; rfl, by rw [h3]; rfl⟩
  · exact ((C5_pan_validation [(panKey, PyVal.str [])]).2.1 rfl).1

/-! ### Claim C10 — the cleaned value is stored even when invalid -/

/-- C10: for a mapping whose `aadhaar_number` is a non-empty string, the
validator always overwrites the field with `clean_aadhaar_number`
(spaces/hyphens stripped; regrouped exactly when the stripped value has 12
characters), independently of the validity bit it stores. -/
theorem C10_overwrite (d : PyDict) (x : Str) (hx : dLookup d aadhaarKey = some (.str x))
    (hne : ¬ (x = [])) :
    ∃ b, validate_extracted_data d aadhaarTag
        = .ok (dSet (dSet d aadhaarKey (.str (clean_aadhaar_number x))) aadhaarValidKey
            (.bool b))
      ∧ b = (validate_aadhaar_format (clean_aadhaar_number x)).1
      ∧ ((aadhaarCleanRaw x).length = 12 →
          clean_aadhaar_number x = aadhaarGroup (aadhaarCleanRaw x))
      ∧ (¬ ((aadhaarCleanRaw x).length = 12) → clean_aadhaar_number x = aadhaarCleanRaw x) := by
  refine ⟨_, validate_aadhaar_str d x hx hne, rfl, fun hlen => ?_, fun hlen => ?_⟩
  · rw [clean_aadhaar_shape hne, if_pos (by simp [hlen])]
  · rw [clean_aadhaar_shape hne, if_neg (by simp [hlen])]

/-- C10 witness: the fully-masked value is overwritten with its regrouped
form while `aadhaar_valid` is set to `false`, and a 13-character cleaned
value is stored stripped but ungrouped, also invalid. -/
theorem C10_overwrite_witness :
    (∃ b, validate_extracted_data [(aadhaarKey, PyVal.str ("XXXXXXXXXXXX".data))] aadhaarTag
        = .ok (dSet (dSet [(aadhaarKey, PyVal.str ("XXXXXXXXXXXX".data))] aadhaarKey
            (.str (clean_aadhaar_number ("XXXXXXXXXXXX".data)))) aadhaarValidKey (.bool b))
      ∧ b = (validate_aadhaar_format (clean_aadhaar_number ("XXXXXXXXXXXX".data))).1
      ∧ ((aadhaarCleanRaw ("XXXXXXXXXXXX".data)).length = 12 →
          clean_aadhaar_number ("XXXXXXXXXXXX".data)
            = aadhaarGroup (aadhaarCleanRaw ("XXXXXXXXXXXX".data)))
      ∧ (¬ ((aadhaarCleanRaw ("XXXXXXXXXXXX".data)).length = 12) →
          clean_aadhaar_number ("XXXXXXXXXXXX".data) = aadhaarCleanRaw ("XXXXXXXXXXXX".data))) ∧
    clean_aadhaar_number ("XXXXXXXXXXXX".data) = "XXXX XXXX XXXX".data ∧
    (validate_aadhaar_format (clean_aadhaar_number ("XXXXXXXXXXXX".data))).1 = false ∧
    clean_aadhaar_number ("1234567890123".data) = "1234567890123".data ∧
    (validate_aadhaar_format (clean_aadhaar_number ("1234567890123".data))).1 = false := by
  exact ⟨C10_overwrite [(aadhaarKey, PyVal.str ("XXXXXXXXXXXX".data))] "XXXXXXXXXXXX".data
    rfl (by decide), by decide, by decide, by decide, by decide⟩

/-! ### Claim C4 — Aadhaar validation -/

/-- C4 counterexample: on `aadhaar_number = "-\t111122223333"` the cleaned
value (trim, strip spaces and hyphens) is the 13-character `"\t111122223333"`,
yet the validator stores it and sets `aadhaar_valid = true` — because
`validate_aadhaar_format` re-cleans the stored value, and that second
`strip()` removes the tab that the hyphen removal had exposed.  The claim's
"valid iff the cleaned value is exactly 12 characters of digits/X" and
"when valid, the stored value is the regrouped 12 characters" are both
false here. -/
theorem C4_counterexample :
    validate_extracted_data [(aadhaarKey, PyVal.str ("-\t111122223333".data))] aadhaarTag
      = .ok [(aadhaarKey, PyVal.str ("\t111122223333".data)),
             (aadhaarValidKey, PyVal.bool true)]
    ∧ (aadhaarCleanRaw ("-\t111122223333".data)).length = 13
    ∧ ¬ ("\t111122223333".data
        = aadhaarGroup (aadhaarCleanRaw ("-\t111122223333".data))) := by
  exact ⟨rfl, by decide, by decide⟩

/-- C4 (amended): for a mapping whose `aadhaar_number` is a non-empty
string `x` whose cleaned value `aadhaarCleanRaw x` carries no whitespace at
its ends (in particular whenever `x` has no whitespace other than spaces),
the validator succeeds, stores `clean_aadhaar_number x`, sets
`aadhaar_valid` true iff the cleaned value is exactly 12 characters of
digits or `X` and is not fully masked, stores the regrouped form exactly
when valid forces 12 characters, and leaves every other key unchanged. -/
theorem C4_aadhaar_validation (d : PyDict) (x : Str)
    (hx : dLookup d aadhaarKey = some (.str x)) (hne : ¬ (x = []))
    (H : pyStrip (aadhaarCleanRaw x) = aadhaarCleanRaw x) :
    ∃ r, validate_extracted_data d aadhaarTag = .ok r ∧
      dLookup r aadhaarKey = some (.str (clean_aadhaar_number x)) ∧
      dLookup r aadhaarValidKey = some (.bool
        (aadhaarRegexBody (aadhaarCleanRaw x)
          && !(decide (aadhaarCleanRaw x = List.replicate 12 'X')))) ∧
      ((aadhaarRegexBody (aadhaarCleanRaw x)
          && !(decide (aadhaarCleanRaw x = List.replicate 12 'X'))) = true →
        clean_aadhaar_number x = aadhaarGroup (aadhaarCleanRaw x)) ∧
      (∀ k, ¬ (k = aadhaarKey) → ¬ (k = aadhaarValidKey) → dLookup r k = dLookup d k) := by
  have Hn : noWsEnds (aadhaarCleanRaw x) := (strip_eq_self_iff_noWsEnds _).mp H
  refine ⟨_, validate_aadhaar_str d x hx hne, ?_, ?_, ?_, ?_⟩
  · rw [dLookup_dSet_other _ _ _ _ aadhaarKey_ne_aadhaarValidKey, dLookup_dSet_self]
  · rw [dLookup_dSet_self, validate_aadhaar_format_clean x Hn]
  · intro hb
    have hlen : (aadhaarCleanRaw x).length = 12 := by
      have h1 : aadhaarRegexBody (aadhaarCleanRaw x) = true := by
        cases hh : aadhaarRegexBody (aadhaarCleanRaw x) with
        | false => rw [hh] at hb; simp at hb
        | true => rfl
      unfold aadhaarRegexBody at h1
      have h2 := (Bool.and_eq_true _ _).mp h1
      have h3 := h2.1
      simp only [beq_iff_eq] at h3
      exact h3
    rw [clean_aadhaar_shape hne, if_pos (by simp [hlen])]
  · intro k hk1 hk2
    rw [dLookup_dSet_other _ _ _ _ hk2, dLookup_dSet_other _ _ _ _ hk1]

/-- C4 witness: the claim's positive and negative examples under the
amended hypothesis — `"1234 5678 9012"` and `"123456789012"` both valid and
stored as `"1234 5678 9012"`, `"XXXX 5678 9012"` valid, `"XXXX XXXX XXXX"`
and `"12345"` invalid. -/
theorem C4_aadhaar_validation_witness :
    (∃ r, validate_extracted_data [(aadhaarKey, PyVal.str ("1234 5678 9012".data))] aadhaarTag
        = .ok r ∧
      dLookup r aadhaarKey = some (.str ("1234 5678 9012".data)) ∧
      dLookup r aadhaarValidKey = some (.bool true)) ∧
    (∃ r, validate_extracted_data [(aadhaarKey, PyVal.str ("123456789012".data))] aadhaarTag
        = .ok r ∧
      dLookup r aadhaarKey = some (.str ("1234 5678 9012".data)) ∧
      dLookup r aadhaarValidKey = some (.bool true)) ∧
    (∃ r, validate_extracted_data [(aadhaarKey, PyVal.str ("XXXX 5678 9012".data))] aadhaarTag
        = .ok r ∧ dLookup r aadhaarValidKey = some (.bool true)) ∧
    (∃ r, validate_extracted_data [(aadhaarKey, PyVal.str ("XXXX XXXX XXXX".data))] aadhaarTag
        = .ok r ∧ dLookup r aadhaarValidKey = some (.bool false)) ∧
    (∃ r, validate_extracted_data [(aadhaarKey, PyVal.str ("12345".data))] aadhaarTag
        = .ok r ∧ dLookup r aadhaarValidKey = some (.bool false)) := by
  refine ⟨?_, ?_, ?_, ?_, ?_⟩
  · obtain ⟨r, h1, h2, h3, _, _⟩ :=
      C4_aadhaar_validation [(aadhaarKey, PyVal.str ("1234 5678 9012".data))]
        "1234 5678 9012".data rfl (by decide) (by decide)
    exact ⟨r, h1, by rw [h2]; rfl, by rw [h3]; rfl⟩
  · obtain ⟨r, h1, h2, h3, _, _⟩ :=
      C4_aadhaar_validation [(aadhaarKey, PyVal.str ("123456789012".data))]
        "123456789012".data rfl (by decide) (by decide)
    exact ⟨r, h1, by rw [h2]; rfl, by rw [h3]; rfl⟩
  · obtain ⟨r, h1, _, h3, _, _⟩ :=
      C4_aadhaar_validation [(aadhaarKey, PyVal.str ("XXXX 5678 9012".data))]
        "XXXX 5678 9012".data rfl (by decide) (by decide)
    exact ⟨r, h1, by rw [h3]; rfl⟩
  · obtain ⟨r, h1, _, h3, _, _⟩ :=
      C4_aadhaar_validation [(aadhaarKey, PyVal.str ("XXXX XXXX XXXX".data))]
        "XXXX XXXX XXXX".data rfl (by decide) (by decide)
    exact ⟨r, h1, by rw [h3]; rfl⟩
  · obtain ⟨r, h1, _, h3, _, _⟩ :=
      C4_aadhaar_validation [(aadhaarKey, PyVal.str ("12345".data))]
        "12345".data rfl (by decide) (by decide)
    exact ⟨r, h1, by rw [h3]; rfl⟩

/-! ### Claim C7 — validator idempotence -/

/-- C7 counterexample: on `{"aadhaar_number": "-\t1"}` the first pass
stores `"\t1"` (hyphen removal exposes the tab after the strip), and the
second pass strips that tab and stores `"1"`: the two results disagree at
`aadhaar_number`, so the validator is not idempotent. -/
theorem C7_counterexample :
    validate_extracted_data [(aadhaarKey, PyVal.str ("-\t1".data))] aadhaarTag
      = .ok [(aadhaarKey, PyVal.str ("\t1".data)), (aadhaarValidKey, PyVal.bool false)]
    ∧ validate_extracted_data
        [(aadhaarKey, PyVal.str ("\t1".data)), (aadhaarValidKey, PyVal.bool false)] aadhaarTag
      = .ok [(aadhaarKey, PyVal.str ("1".data)), (aadhaarValidKey, PyVal.bool false)]
    ∧ ¬ (("1".data : Str) = "\t1".data) := by
  exact ⟨rfl, rfl, by decide⟩

theorem validate_pan_second (d : PyDict) (x : Str) :
    validate_extracted_data
        (dSet (dSet d panKey (.str (clean_pan_number x))) panValidKey
          (.bool (validate_pan_format (clean_pan_number x)).1)) panTag
      = .ok (dSet (dSet d panKey (.str (clean_pan_number x))) panValidKey
          (.bool (validate_pan_format (clean_pan_number x)).1)) := by
  set r := dSet (dSet d panKey (.str (clean_pan_number x))) panValidKey
    (.bool (validate_pan_format (clean_pan_number x)).1) with hr
  have hrk : dLookup r panKey = some (.str (clean_pan_number x)) := by
    rw [hr, dLookup_dSet_other _ _ _ _ panKey_ne_panValidKey, dLookup_dSet_self]
  have hrv : dLookup r panValidKey
      = some (.bool (validate_pan_format (clean_pan_number x)).1) := by
    rw [hr, dLookup_dSet_self]
  by_cases h0 : clean_pan_number x = []
  · rw [validate_pan_falsy r _ hrk (by simp [truthy, h0])]
    have hflag : (validate_pan_format (clean_pan_number x)).1 = false := by rw [h0]; decide
    rw [show (PyVal.bool false)
        = PyVal.bool (validate_pan_format (clean_pan_number x)).1 by rw [hflag]]
    exact congrArg _ (dSet_eq_self r panValidKey _ hrv)
  · rw [validate_pan_str r _ hrk h0, clean_pan_number_idem]
    rw [dSet_eq_self r panKey _ hrk, dSet_eq_self r panValidKey _ hrv]

theorem validate_aadhaar_second (d : PyDict) (x : Str)
    (H : noWsEnds (aadhaarCleanRaw x)) :
    validate_extracted_data
        (dSet (dSet d aadhaarKey (.str (clean_aadhaar_number x))) aadhaarValidKey
          (.bool (validate_aadhaar_format (clean_aadhaar_number x)).1)) aadhaarTag
      = .ok (dSet (dSet d aadhaarKey (.str (clean_aadhaar_number x))) aadhaarValidKey
          (.bool (validate_aadhaar_format (clean_aadhaar_number x)).1)) := by
  set r := dSet (dSet d aadhaarKey (.str (clean_aadhaar_number x))) aadhaarValidKey
    (.bool (validate_aadhaar_format (clean_aadhaar_number x)).1) with hr
  have hrk : dLookup r aadhaarKey = some (.str (clean_aadhaar_number x)) := by
    rw [hr, dLookup_dSet_other _ _ _ _ aadhaarKey_ne_aadhaarValidKey, dLookup_dSet_self]
  have hrv : dLookup r aadhaarValidKey
      = some (.bool (validate_aadhaar_format (clean_aadhaar_number x)).1) := by
    rw [hr, dLookup_dSet_self]
  by_cases h0 : clean_aadhaar_number x = []
  · rw [validate_aadhaar_falsy r _ hrk (by simp [truthy, h0])]
    have hflag : (validate_aadhaar_format (clean_aadhaar_number x)).1 = false := by
      rw [h0]; decide
    rw [show (PyVal.bool false)
        = PyVal.bool (validate_aadhaar_format (clean_aadhaar_number x)).1 by rw [hflag]]
    exact congrArg _ (dSet_eq_self r aadhaarValidKey _ hrv)
  · rw [validate_aadhaar_str r _ hrk h0, clean_aadhaar_number_idem x H]
    rw [dSet_eq_self r aadhaarKey _ hrk, dSet_eq_self r aadhaarValidKey _ hrv]

/-- The condition under which the validator is idempotent: the identifying
field, when present and truthy, is a string — and for Aadhaar its cleaned
value additionally has no whitespace at its ends (e.g. the input contains
no whitespace other than spaces). -/
def validatorIdemCond (d : PyDict) (t : Str) : Prop :=
  (t = panTag → ∀ v, dLookup d panKey = some v → truthy v = true →
    ∃ s, v = PyVal.str s) ∧
  (t = aadhaarTag → ∀ v, dLookup d aadhaarKey = some v → truthy v = true →
    ∃ s, v = PyVal.str s ∧ pyStrip (aadhaarCleanRaw s) = aadhaarCleanRaw s)

/-- C7 (amended): the validator is idempotent on PAN documents with
string-valued fields, on Aadhaar documents whose cleaned number carries no
whitespace at its ends, and on unknown document types; it is not
idempotent in general (see the counterexample). -/
theorem C7_idempotent (d : PyDict) (t : Str) (h : validatorIdemCond d t) :
    ∃ r, validate_extracted_data d t = .ok r ∧ validate_extracted_data r t = .ok r := by
  by_cases hp : t = panTag
  · subst hp
    cases hx : dLookup d panKey with
    | none =>
      refine ⟨_, validate_pan_absent d hx, ?_⟩
      have hrk : dLookup (dSet d panValidKey (.bool false)) panKey = Option.none := by
        rw [dLookup_dSet_other _ _ _ _ panKey_ne_panValidKey]; exact hx
      rw [validate_pan_absent _ hrk]
      exact congrArg _ (dSet_eq_self _ panValidKey _ (dLookup_dSet_self _ _ _))
    | some v =>
      by_cases hv : truthy v = true
      · obtain ⟨s, rfl⟩ := h.1 rfl v hx hv
        have hne : ¬ (s = []) := (truthy_str_iff s).mp hv
        exact ⟨_, validate_pan_str d s hx hne, validate_pan_second d s⟩
      · have hv' : truthy v = false := Bool.eq_false_iff.mpr hv
        refine ⟨_, validate_pan_falsy d v hx hv', ?_⟩
        have hrk : dLookup (dSet d panValidKey (.bool false)) panKey = some v := by
          rw [dLookup_dSet_other _ _ _ _ panKey_ne_panValidKey]; exact hx
        rw [validate_pan_falsy _ v hrk hv']
        exact congrArg _ (dSet_eq_self _ panValidKey _ (dLookup_dSet_self _ _ _))
  · by_cases ha : t = aadhaarTag
    · subst ha
      cases hx : dLookup d aadhaarKey with
      | none =>
        refine ⟨_, validate_aadhaar_absent d hx, ?_⟩
        have hrk : dLookup (dSet d aadhaarValidKey (.bool false)) aadhaarKey
            = Option.none := by
          rw [dLookup_dSet_other _ _ _ _ aadhaarKey_ne_aadhaarValidKey]; exact hx
        rw [validate_aadhaar_absent _ hrk]
        exact congrArg _ (dSet_eq_self _ aadhaarValidKey _ (dLookup_dSet_self _ _ _))
      | some v =>
        by_cases hv : truthy v = true
        · obtain ⟨s, rfl, Hs⟩ := h.2 rfl v hx hv
          have hne : ¬ (s = []) := (truthy_str_iff s).mp hv
          exact ⟨_, validate_aadhaar_str d s hx hne,
            validate_aadhaar_second d s ((strip_eq_self_iff_noWsEnds _).mp Hs)⟩
        · have hv' : truthy v = false := Bool.eq_false_iff.mpr hv
          refine ⟨_, validate_aadhaar_falsy d v hx hv', ?_⟩
          have hrk : dLookup (dSet d aadhaarValidKey (.bool false)) aadhaarKey = some v := by
            rw [dLookup_dSet_other _ _ _ _ aadhaarKey_ne_aadhaarValidKey]; exact hx
          rw [validate_aadhaar_falsy _ v hrk hv']
          exact congrArg _ (dSet_eq_self _ aadhaarValidKey _ (dLookup_dSet_self _ _ _))
    · exact ⟨d, validate_other d t hp ha, validate_other d t hp ha⟩

/-- C7 witness: idempotence at a concrete PAN mapping and a concrete
Aadhaar mapping satisfying the amended condition. -/
theorem C7_idempotent_witness :
    (∃ r, validate_extracted_data [(panKey, PyVal.str ("abc de1234f".data))] panTag = .ok r ∧
      validate_extracted_data r panTag = .ok r) ∧
    (∃ r, validate_extracted_data [(aadhaarKey, PyVal.str ("1234-5678-9012".data))] aadhaarTag
        = .ok r ∧ validate_extracted_data r aadhaarTag = .ok r) := by
  constructor
  · exact C7_idempotent [(panKey, PyVal.str ("abc de1234f".data))] panTag
      ⟨fun _ v hv _ => ⟨"abc de1234f".data, by
        simp only [dLookup, if_pos rfl] at hv
        exact (Option.some.injEq _ _).mp hv.symm ▸ rfl⟩,
       fun hcontra => absurd hcontra (by decide)⟩
  · exact C7_idempotent [(aadhaarKey, PyVal.str ("1234-5678-9012".data))] aadhaarTag
      ⟨fun hcontra => absurd hcontra (by decide),
       fun _ v hv _ => ⟨"1234-5678-9012".data, by
        simp only [dLookup, if_pos rfl] at hv
        exact ⟨(Option.some.injEq _ _).mp hv.symm ▸ rfl, by decide⟩⟩⟩

/-! ### Claim C6 — validator totality -/

/-- C6 counterexample: a mapping whose `pan_number` is the (truthy)
integer `123` makes `clean_pan_number` call `.strip()` on an `int`, which
raises `AttributeError` — the validator is not total on arbitrary
mappings. -/
theorem C6_counterexample :
    validate_extracted_data [(panKey, PyVal.int 123)] panTag
      = .error PyExn.attributeError := by rfl

/-- C6 (amended): `validate_extracted_data` returns a mapping and raises
no exception whenever the identifying field, if present and truthy, is a
string; an absent or falsy (e.g. empty) field degrades to the `*_valid`
flag being `false` rather than to a failure. -/
theorem C6_validator_total (d : PyDict) (t : Str)
    (h1 : t = panTag → ∀ v, dLookup d panKey = some v → truthy v = true →
      ∃ s, v = PyVal.str s)
    (h2 : t = aadhaarTag → ∀ v, dLookup d aadhaarKey = some v → truthy v = true →
      ∃ s, v = PyVal.str s) :
    ∃ r, validate_extracted_data d t = .ok r ∧
      (t = panTag → dLookup d panKey = Option.none →
        dLookup r panValidKey = some (.bool false)) ∧
      (t = panTag → ∀ v, dLookup d panKey = some v → truthy v = false →
        dLookup r panValidKey = some (.bool false)) ∧
      (t = aadhaarTag → dLookup d aadhaarKey = Option.none →
        dLookup r aadhaarValidKey = some (.bool false)) ∧
      (t = aadhaarTag → ∀ v, dLookup d aadhaarKey = some v → truthy v = false →
        dLookup r aadhaarValidKey = some (.bool false)) := by
  by_cases hp : t = panTag
  · subst hp
    cases hx : dLookup d panKey with
    | none =>
      refine ⟨_, validate_pan_absent d hx, ?_, ?_, ?_, ?_⟩
      · intro _ _; exact dLookup_dSet_self _ _ _
      · intro _ v hv _; exact Option.noConfusion hv
      · intro hcontra; exact absurd hcontra (by decide)
      · intro hcontra; exact absurd hcontra (by decide)
    | some v =>
      by_cases hv : truthy v = true
      · obtain ⟨s, rfl⟩ := h1 rfl v hx hv
        refine ⟨_, validate_pan_str d s hx ((truthy_str_iff s).mp hv), ?_, ?_, ?_, ?_⟩
        · intro _ hnone; exact Option.noConfusion hnone
        · intro _ w hw hwf
          injection hw with hw
          rw [← hw] at hwf
          exact Bool.noConfusion (hv.symm.trans hwf)
        · intro hcontra; exact absurd hcontra (by decide)
        · intro hcontra; exact absurd hcontra (by decide)
      · have hv' : truthy v = false := Bool.eq_false_iff.mpr hv
        refine ⟨_, validate_pan_falsy d v hx hv', ?_, ?_, ?_, ?_⟩
        · intro _ _; exact dLookup_dSet_self _ _ _
        · intro _ _ _ _; exact dLookup_dSet_self _ _ _
        · intro hcontra; exact absurd hcontra (by decide)
        · intro hcontra; exact absurd hcontra (by decide)
  · by_cases ha : t = aadhaarTag
    · subst ha
      cases hx : dLookup d aadhaarKey with
      | none =>
        refine ⟨_, validate_aadhaar_absent d hx, ?_, ?_, ?_, ?_⟩
        · intro hcontra; exact absurd hcontra hp
        · intro hcontra; exact absurd hcontra hp
        · intro _ _; exact dLookup_dSet_self _ _ _
        · intro _ v hv _; exact Option.noConfusion hv
      | some v =>
        by_cases hv : truthy v = true
        · obtain ⟨s, rfl⟩ := h2 rfl v hx hv
          refine ⟨_, validate_aadhaar_str d s hx ((truthy_str_iff s).mp hv), ?_, ?_, ?_, ?_⟩
          · intro hcontra; exact absurd hcontra hp
          · intro hcontra; exact absurd hcontra hp
          · intro _ hnone; exact Option.noConfusion hnone
          · intro _ w hw hwf
            injection hw with hw
            rw [← hw] at hwf
            exact Bool.noConfusion (hv.symm.trans hwf)
        · have hv' : truthy v = false := Bool.eq_false_iff.mpr hv
          refine ⟨_, validate_aadhaar_falsy d v hx hv', ?_, ?_, ?_, ?_⟩
          · intro hcontra; exact absurd hcontra hp
          · intro hcontra; exact absurd hcontra hp
          · intro _ _; exact dLookup_dSet_self _ _ _
          · intro _ _ _ _; exact dLookup_dSet_self _ _ _
    · refine ⟨d, validate_other d t hp ha, ?_, ?_, ?_, ?_⟩
      · intro hcontra; exact absurd hcontra hp
      · intro hcontra; exact absurd hcontra hp
      · intro hcontra; exact absurd hcontra ha
      · intro hcontra; exact absurd hcontra ha

/-- C6 witness: totality and the degrade-to-false behaviour at concrete
mappings — a missing `pan_number` and an empty `aadhaar_number`. -/
theorem C6_validator_total_witness :
    (∃ r, validate_extracted_data [] panTag = .ok r ∧
      (panTag = panTag → dLookup ([] : PyDict) panKey = Option.none →
        dLookup r panValidKey = some (.bool false)) ∧
      (panTag = panTag → ∀ v, dLookup ([] : PyDict) panKey = some v → truthy v = false →
        dLookup r panValidKey = some (.bool false)) ∧
      (panTag = aadhaarTag → dLookup ([] : PyDict) aadhaarKey = Option.none →
        dLookup r aadhaarValidKey = some (.bool false)) ∧
      (panTag = aadhaarTag → ∀ v, dLookup ([] : PyDict) aadhaarKey = some v →
        truthy v = false → dLookup r aadhaarValidKey = some (.bool false))) ∧
    (∃ r, validate_extracted_data [(aadhaarKey, PyVal.str [])] aadhaarTag = .ok r ∧
      (aadhaarTag = panTag →
        dLookup [(aadhaarKey, PyVal.str [])] panKey = Option.none →
        dLookup r panValidKey = some (.bool false)) ∧
      (aadhaarTag = panTag → ∀ v, dLookup [(aadhaarKey, PyVal.str [])] panKey = some v →
        truthy v = false → dLookup r panValidKey = some (.bool false)) ∧
      (aadhaarTag = aadhaarTag →
        dLookup [(aadhaarKey, PyVal.str [])] aadhaarKey = Option.none →
        dLookup r aadhaarValidKey = some (.bool false)) ∧
      (aadhaarTag = aadhaarTag → ∀ v,
        dLookup [(aadhaarKey, PyVal.str [])] aadhaarKey = some v → truthy v = false →
        dLookup r aadhaarValidKey = some (.bool false))) := by
  constructor
  · exact C6_validator_total [] panTag
      (fun _ v hv _ => by cases hv)
      (fun hcontra => absurd hcontra (by decide))
  · exact C6_validator_total [(aadhaarKey, PyVal.str [])] aadhaarTag
      (fun hcontra => absurd hcontra (by decide))
      (fun _ v hv ht => ⟨[], by
        simp only [dLookup, if_pos rfl] at hv
        exact (Option.some.injEq _ _).mp hv.symm ▸ rfl⟩)

/-! ### Claim C2 — the single-document pipeline -/

theorem validate_any_ok_dict {v : PyVal} {t : Str} {w : PyVal}
    (h : validate_any v t = .ok w) : ∃ es, w = PyVal.dict es := by
  cases v with
  | dict d =>
    have h2 : Except.map PyVal.dict (validate_extracted_data d t) = .ok w := h
    cases hvd : validate_extracted_data d t with
    | ok r =>
      rw [hvd] at h2
      injection h2 with h2
      exact ⟨r, h2.symm⟩
    | error e =>
      rw [hvd] at h2
      cases h2
  | str s => cases h
  | int n => cases h
  | bool b => cases h
  | none => cases h
  | list xs => cases h

theorem extract_steps_ok_shape {env : PipelineEnv} {p dt : Str} {pr : PyVal × Nat}
    (hv : (env.validatePan || env.validateAadhaar) = true)
    (hs : extract_steps env p dt = .ok pr) :
    pr.2 = env.fileSize ∧ ∃ es, pr.1 = PyVal.dict es := by
  unfold extract_steps at hs
  by_cases hp : (get_extraction_prompt dt).isEmpty = true
  · rw [if_pos hp] at hs
    cases hs
  · rw [if_neg hp] at hs
    by_cases hf : (!env.fileExists) = true
    · rw [if_pos hf] at hs
      cases hs
    · rw [if_neg hf] at hs
      cases hapi : env.apiOutcome with
      | error e =>
        rw [hapi] at hs
        dsimp only at hs
        cases hs
      | ok extracted =>
        rw [hapi] at hs
        dsimp only at hs
        rw [hv, if_pos rfl] at hs
        cases hva : validate_any extracted dt with
        | error ex =>
          rw [hva] at hs
          dsimp only at hs
          cases hs
        | ok w =>
          rw [hva] at hs
          dsimp only at hs
          injection hs with hs
          rw [← hs]
          exact ⟨rfl, validate_any_ok_dict hva⟩

/-- C2 counterexample: with the default settings, a prompt lookup that
succeeds, an existing image file whose size has been read, and a Moondream
call that then raises, the pipeline returns an error-status result whose
metadata does NOT contain the file size — the error branch's metadata
carries only `processed_at`, `processing_time_ms` and `original_filename`
(extractor.py:184-188), even though the size-reading step had completed. -/
theorem C2_counterexample :
    (extract_from_image
        ⟨true, 1234, Except.error ("connection refused".data), true, true, "t0".data, 42⟩
        "img.jpg".data panTag (some ("a.jpg".data))).status = errorStatus
    ∧ (extract_from_image
        ⟨true, 1234, Except.error ("connection refused".data), true, true, "t0".data, 42⟩
        "img.jpg".data panTag (some ("a.jpg".data))).metadata.file_size_bytes = Option.none
    ∧ (PipelineEnv.fileExists
        ⟨true, 1234, Except.error ("connection refused".data), true, true, "t0".data, 42⟩)
      = true := by
  exact ⟨rfl, rfl, rfl⟩

/-- C2 (amended): with validation enabled (the default configuration), the
pipeline always terminates with a result whose status is `success` — with
a non-null data mapping, no error key, and full metadata — or `error` —
with an error message, null data, and metadata that always carries
`processed_at`, the elapsed time and the original filename but never
`file_size_bytes`, regardless of how far the pipeline got. -/
theorem C2_pipeline_total (env : PipelineEnv) (p dt : Str) (ofn : Option Str)
    (hv : (env.validatePan || env.validateAadhaar) = true) :
    ((extract_from_image env p dt ofn).status = successStatus ∧
      (extract_from_image env p dt ofn).error = Option.none ∧
      ¬ ((extract_from_image env p dt ofn).data = PyVal.none) ∧
      (extract_from_image env p dt ofn).metadata
        = ⟨some env.processedAt, some env.elapsedMs, some modelVersionDefault, ofn,
            some env.fileSize⟩) ∨
    ((extract_from_image env p dt ofn).status = errorStatus ∧
      (∃ m, (extract_from_image env p dt ofn).error = some m) ∧
      (extract_from_image env p dt ofn).data = PyVal.none ∧
      (extract_from_image env p dt ofn).metadata
        = ⟨some env.processedAt, some env.elapsedMs, Option.none, ofn, Option.none⟩) := by
  unfold extract_from_image
  cases hs : extract_steps env p dt with
  | error msg => exact Or.inr ⟨rfl, ⟨msg, rfl⟩, rfl, rfl⟩
  | ok pr =>
    obtain ⟨v, size⟩ := pr
    obtain ⟨hsize, es, hdict⟩ := extract_steps_ok_shape hv hs
    left
    refine ⟨rfl, rfl, ?_, ?_⟩
    · dsimp only
      dsimp only at hdict
      rw [hdict]
      simp
    · dsimp only at hsize
      rw [hsize]

/-- C2 witness: the success shape at a concrete environment whose model
call returns a PAN dict, and the error shape of the counterexample
environment, both obtained from the total-pipeline theorem. -/
theorem C2_pipeline_total_witness :
    (((extract_from_image
        ⟨true, 1234, Except.ok (PyVal.dict [(panKey, PyVal.str ("ABCDE1234F".data))]),
          true, true, "t0".data, 42⟩ "img.jpg".data panTag (some ("a.jpg".data))).status
        = successStatus ∧
      (extract_from_image
        ⟨true, 1234, Except.ok (PyVal.dict [(panKey, PyVal.str ("ABCDE1234F".data))]),
          true, true, "t0".data, 42⟩ "img.jpg".data panTag (some ("a.jpg".data))).error
        = Option.none ∧
      ¬ ((extract_from_image
        ⟨true, 1234, Except.ok (PyVal.dict [(panKey, PyVal.str ("ABCDE1234F".data))]),
          true, true, "t0".data, 42⟩ "img.jpg".data panTag (some ("a.jpg".data))).data
        = PyVal.none) ∧
      (extract_from_image
        ⟨true, 1234, Except.ok (PyVal.dict [(panKey, PyVal.str ("ABCDE1234F".data))]),
          true, true, "t0".data, 42⟩ "img.jpg".data panTag (some ("a.jpg".data))).metadata
        = ⟨some ("t0".data), some 42, some modelVersionDefault, some ("a.jpg".data),
            some 1234⟩) ∨
    ((extract_from_image
        ⟨true, 1234, Except.ok (PyVal.dict [(panKey, PyVal.str ("ABCDE1234F".data))]),
          true, true, "t0".data, 42⟩ "img.jpg".data panTag (some ("a.jpg".data))).status
        = errorStatus ∧
      (∃ m, (extract_from_image
        ⟨true, 1234, Except.ok (PyVal.dict [(panKey, PyVal.str ("ABCDE1234F".data))]),
          true, true, "t0".data, 42⟩ "img.jpg".data panTag (some ("a.jpg".data))).error
        = some m) ∧
      (extract_from_image
        ⟨true, 1234, Except.ok (PyVal.dict [(panKey, PyVal.str ("ABCDE1234F".data))]),
          true, true, "t0".data, 42⟩ "img.jpg".data panTag (some ("a.jpg".data))).data
        = PyVal.none ∧
      (extract_from_image
        ⟨true, 1234, Except.ok (PyVal.dict [(panKey, PyVal.str ("ABCDE1234F".data))]),
          true, true, "t0".data, 42⟩ "img.jpg".data panTag (some ("a.jpg".data))).metadata
        = ⟨some ("t0".data), some 42, Option.none, some ("a.jpg".data), Option.none⟩)) :=
  C2_pipeline_total
    ⟨true, 1234, Except.ok (PyVal.dict [(panKey, PyVal.str ("ABCDE1234F".data))]),
      true, true, "t0".data, 42⟩ "img.jpg".data panTag (some ("a.jpg".data)) rfl

/-! ### Claim C3 — batch aggregation -/

/-- The BatchResult invariant of the claim: totals, counts, and the
three-way status law. -/
def batchInvariant (b : BatchExtractionResponse) : Prop :=
  b.total_documents = b.results.length ∧
  b.successful = b.results.countP (fun r => decide (r.status = successStatus)) ∧
  b.failed = b.total_documents - b.successful ∧
  (b.status = successStatus ↔ (b.failed = 0 ∧ 0 < b.total_documents)) ∧
  (b.status = errorStatus ↔ b.successful = 0) ∧
  (b.status = mixedStatus ↔ (¬ (b.failed = 0 ∧ 0 < b.total_documents) ∧
    ¬ (b.successful = 0)))

theorem status_strings_distinct :
    ¬ (successStatus = mixedStatus) ∧ ¬ (successStatus = errorStatus) ∧
    ¬ (mixedStatus = errorStatus) := by decide

/-- The shared statistics fold satisfies the invariant on every non-empty
results list. -/
theorem batch_stats_invariant (rs : List ExtractionResponse) (hne : ¬ (rs = []))
    (e : Nat) : batchInvariant (batch_stats rs e) := by
  have hcount : rs.countP (fun r => decide (r.status = successStatus)) ≤ rs.length :=
    List.countP_le_length _
  have hlen : 0 < rs.length := List.length_pos.mpr hne
  unfold batch_stats batchInvariant
  dsimp only
  refine ⟨rfl, rfl, rfl, ?_, ?_, ?_⟩
  · by_cases hc : rs.countP (fun r => decide (r.status = successStatus)) = rs.length
    · rw [if_pos hc]
      simp only [true_iff, hc]
      omega
    · rw [if_neg hc]
      constructor
      · intro hst
        by_cases hpos : 0 < rs.countP (fun r => decide (r.status = successStatus))
        · rw [if_pos hpos] at hst
          exact absurd hst (by decide)
        · rw [if_neg hpos] at hst
          exact absurd hst (by decide)
      · intro ⟨hfail, _⟩
        omega
  · by_cases hc : rs.countP (fun r => decide (r.status = successStatus)) = rs.length
    · rw [if_pos hc]
      simp only [hc]
      constructor
      · intro hst
        exact absurd hst (by decide)
      · intro h0
        omega
    · rw [if_neg hc]
      by_cases hpos : 0 < rs.countP (fun r => decide (r.status = successStatus))
      · rw [if_pos hpos]
        constructor
        · intro hst
          exact absurd hst (by decide)
        · intro h0
          omega
      · rw [if_neg hpos]
        simp only [true_iff]
        omega
  · by_cases hc : rs.countP (fun r => decide (r.status = successStatus)) = rs.length
    · rw [if_pos hc]
      constructor
      · intro hst
        exact absurd hst (by decide)
      · intro ⟨h1, _⟩
        exact absurd (by constructor <;> omega) h1
    · rw [if_neg hc]
      by_cases hpos : 0 < rs.countP (fun r => decide (r.status = successStatus))
      · rw [if_pos hpos]
        simp only [true_iff]
        constructor
        · intro ⟨hfail, _⟩
          omega
        · omega
      · rw [if_neg hpos]
        constructor
        · intro hst
          exact absurd hst (by decide)
        · intro ⟨_, h2⟩
          exact absurd (by omega) h2

/-! Characterizations of the two endpoints' results lists. -/

/-- The save-loop error dict of a sequential batch item, if its save fails. -/
def seqErrCase (dt : Str) (f : BatchFile) : Option ExtractionResponse :=
  match f.saveOutcome with
  | .error e => some (seqSaveErrorResult dt f.filename e)
  | .ok _ => Option.none

/-- The `(path, filename)` pair of a sequential batch item, if its save
succeeds. -/
def seqOkCase (f : BatchFile) : Option (Str × Str) :=
  match f.saveOutcome with
  | .ok p => some (p, f.filename)
  | .error _ => Option.none

theorem batch_phase1_spec (dt : Str) (files : List BatchFile) :
    ∀ acc : List ExtractionResponse × List (Str × Str),
      files.foldl
        (fun (acc : List ExtractionResponse × List (Str × Str)) f =>
          match f.saveOutcome with
          | .ok path => (acc.1, acc.2 ++ [(path, f.filename)])
          | .error e => (acc.1 ++ [seqSaveErrorResult dt f.filename e], acc.2))
        acc
      = (acc.1 ++ files.filterMap (seqErrCase dt), acc.2 ++ files.filterMap seqOkCase) := by
  induction files with
  | nil => intro acc; simp
  | cons f rest ih =>
    intro acc
    cases hso : f.saveOutcome with
    | ok path =>
      rw [List.foldl_cons, hso]
      dsimp only
      rw [ih]
      rw [List.filterMap_cons, List.filterMap_cons]
      simp only [seqErrCase, seqOkCase, hso]
      simp [List.append_assoc]
    | error e =>
      rw [List.foldl_cons, hso]
      dsimp only
      rw [ih]
      rw [List.filterMap_cons, List.filterMap_cons]
      simp only [seqErrCase, seqOkCase, hso]
      simp [List.append_assoc]

theorem foldl_extract_spec (ef : Str → Str → ExtractionResponse) (l : List (Str × Str)) :
    ∀ init : List ExtractionResponse,
      l.foldl (fun rs pf => rs ++ [ef pf.1 pf.2]) init
        = init ++ l.map (fun pf => ef pf.1 pf.2) := by
  induction l with
  | nil => intro init; simp
  | cons pf rest ih =>
    intro init
    rw [List.foldl_cons, ih]
    simp [List.append_assoc]

theorem seq_partition_length (dt : Str) (files : List BatchFile) :
    (files.filterMap (seqErrCase dt)).length + (files.filterMap seqOkCase).length
      = files.length := by
  induction files with
  | nil => rfl
  | cons f rest ih =>
    rw [List.filterMap_cons, List.filterMap_cons]
    cases hso : f.saveOutcome with
    | ok path =>
      simp only [seqErrCase, seqOkCase, hso]
      simp only [List.length_cons, List.length]
      omega
    | error e =>
      simp only [seqErrCase, seqOkCase, hso]
      simp only [List.length_cons, List.length]
      omega

/-- The sequential endpoint's results list: the save-failure error dicts in
input order, followed by the extraction results of the saved files in
input order. -/
theorem batch_extract_results (ef : Str → Str → ExtractionResponse) (dt : Str)
    (files : List BatchFile) (elapsed : Nat) (h1 : ¬ (files = []))
    (h50 : files.length ≤ 50) :
    batch_extract ef dt files elapsed
      = .ok (batch_stats
          (files.filterMap (seqErrCase dt)
            ++ (files.filterMap seqOkCase).map (fun pf => ef pf.1 pf.2))
          elapsed) := by
  unfold batch_extract
  rw [if_neg (by simp [List.isEmpty_iff, h1]), if_neg (by omega)]
  rw [batch_phase1_spec dt files ([], [])]
  dsimp only
  rw [foldl_extract_spec]
  simp

theorem batch_stats_results (rs : List ExtractionResponse) (e : Nat) :
    (batch_stats rs e).results = rs := rfl

theorem batch_stats_total (rs : List ExtractionResponse) (e : Nat) :
    (batch_stats rs e).total_documents = rs.length := rfl

theorem entries_partition (dt : Str) (es : List SavedEntry) :
    (es.filterMap (fun en =>
      match en with
      | .saved p fn => some (p, fn)
      | .failed _ _ => Option.none)).length
    + (es.filterMap (fun en =>
      match en with
      | .failed fn e => some (asyncSaveErrorResult dt fn e)
      | .saved _ _ => Option.none)).length
    = es.length := by
  induction es with
  | nil => rfl
  | cons en rest ih =>
    rw [List.filterMap_cons, List.filterMap_cons]
    cases en with
    | saved p fn =>
      dsimp only
      simp only [List.length_cons]
      omega
    | failed fn e =>
      dsimp only
      simp only [List.length_cons]
      omega

theorem async_partition_length (dt : Str) (files : List BatchFile) (so : List Nat) :
    (asyncFilePaths files so).length + (asyncFailResults dt files so).length
      = (asyncEntries files so).length := by
  unfold asyncFilePaths asyncFailResults
  exact entries_partition dt _

theorem asyncEntries_length (files : List BatchFile) (so : List Nat) :
    (asyncEntries files so).length = so.length := by
  unfold asyncEntries
  rw [List.length_map, List.enum_length]

/-- C3: with 1-50 files (the endpoints reject anything else before
aggregating), both the sequential and the concurrent endpoint produce a
BatchResult satisfying the invariant: total_documents = len(results),
successful counts the success-status results, failed is the difference,
and the status is success iff failed=0 and total>0, error iff
successful=0, partial otherwise. -/
theorem C3_batch_status (ef : Str → Str → ExtractionResponse) (dt : Str)
    (files : List BatchFile) (so eo : List Nat) (e1 e2 : Nat)
    (h1 : ¬ (files = [])) (h50 : files.length ≤ 50)
    (hso : so.Perm (List.range files.length))
    (heo : eo.Perm (List.range (asyncFilePaths files so).length)) :
    (∃ b, batch_extract ef dt files e1 = .ok b ∧ batchInvariant b) ∧
    (∃ b, batch_extract_async ef dt files so eo e2 = .ok b ∧ batchInvariant b) := by
  have hflen : 0 < files.length := List.length_pos.mpr h1
  constructor
  · refine ⟨_, batch_extract_results ef dt files e1 h1 h50, ?_⟩
    apply batch_stats_invariant
    intro hemp
    have hl := congrArg List.length hemp
    rw [List.length_append, List.length_map, seq_partition_length dt files] at hl
    simp only [List.length_nil] at hl
    omega
  · unfold batch_extract_async
    rw [if_neg (by simp [List.isEmpty_iff, h1]), if_neg (by omega)]
    refine ⟨_, rfl, ?_⟩
    apply batch_stats_invariant
    intro hemp
    have hl := congrArg List.length hemp
    rw [List.length_append, List.length_map] at hl
    simp only [List.length_nil] at hl
    have heol : eo.length = (asyncFilePaths files so).length :=
      heo.length_eq.trans (List.length_range _)
    have hsol : so.length = files.length := hso.length_eq.trans (List.length_range _)
    have hpart := async_partition_length dt files so
    rw [asyncEntries_length] at hpart
    omega

/-! ### Concrete batch scenario for witnesses and the async bug -/

/-- An environment whose model call returns a parsed PAN dict. -/
def envSuccessPan : PipelineEnv :=
  ⟨true, 10, Except.ok (PyVal.dict [(panKey, PyVal.str ("ABCDE1234F".data))]), true, true,
    "t0".data, 5⟩

/-- An environment whose model call raises. -/
def envApiFailure : PipelineEnv :=
  ⟨true, 20, Except.error ("boom".data), true, true, "t0".data, 5⟩

/-- The pipeline as a function of (saved path, original filename): the
image at path `"pa"` extracts successfully, any other image fails at the
model call. -/
def demoExtract (p fn : Str) : ExtractionResponse :=
  extract_from_image (if p = "pa".data then envSuccessPan else envApiFailure) p panTag
    (some fn)

def demoFiles : List BatchFile :=
  [⟨"a.jpg".data, Except.ok ("pa".data)⟩, ⟨"b.jpg".data, Except.ok ("pb".data)⟩]

def demoFilesOneFail : List BatchFile :=
  [⟨"a.jpg".data, Except.ok ("pa".data)⟩, ⟨"b.jpg".data, Except.error ("disk full".data)⟩]

/-- Status and original filename of a result — the projection used to
compare per-item outcomes across orchestration modes. -/
def resProj (r : ExtractionResponse) : Str × Option Str :=
  (r.status, r.metadata.original_filename)

/-- C3 witness: the aggregate invariant at a concrete two-file batch, in
both modes. -/
theorem C3_batch_status_witness :
    (∃ b, batch_extract demoExtract panTag demoFiles 0 = .ok b ∧ batchInvariant b) ∧
    (∃ b, batch_extract_async demoExtract panTag demoFiles [0, 1] [0, 1] 0 = .ok b ∧
      batchInvariant b) :=
  C3_batch_status demoExtract panTag demoFiles [0, 1] [0, 1] 0 0 (by simp [demoFiles])
    (by decide) (by decide) (by decide)

/-! ### Claim C8 — sequential batch order -/

/-- C8 counterexample: with two files of which the first saves fine and
the second fails to save, the sequential endpoint's results list starts
with the second file's save-error dict — the save loop appends all
save-failure results before the extraction loop appends any extraction
result, so input order is not preserved. -/
theorem C8_counterexample :
    (batch_extract demoExtract panTag demoFilesOneFail 0).map
        (fun b => b.results.map (fun r => r.metadata.original_filename))
      = .ok [some ("b.jpg".data), some ("a.jpg".data)]
    ∧ demoFilesOneFail.map (fun f => some f.filename)
      = [some ("a.jpg".data), some ("b.jpg".data)]
    ∧ ¬ (([some ("b.jpg".data), some ("a.jpg".data)] : List (Option Str))
        = [some ("a.jpg".data), some ("b.jpg".data)]) := by
  exact ⟨rfl, rfl, by decide⟩

/-- C8 (amended): for every 1-50-file batch, the sequential endpoint
returns exactly one result per input item, never drops a save failure
(each failed item surfaces as its error dict), and its results list is:
the save-failure error dicts in input order, followed by the extraction
results of the successfully saved items in input order.  Full input order
is preserved only when no save fails. -/
theorem C8_sequential_batch (ef : Str → Str → ExtractionResponse) (dt : Str)
    (files : List BatchFile) (elapsed : Nat) (h1 : ¬ (files = []))
    (h50 : files.length ≤ 50) :
    ∃ b, batch_extract ef dt files elapsed = .ok b ∧
      b.results = files.filterMap (seqErrCase dt)
        ++ (files.filterMap seqOkCase).map (fun pf => ef pf.1 pf.2) ∧
      b.results.length = files.length ∧
      b.total_documents = files.length ∧
      (∀ f ∈ files, ∀ e, f.saveOutcome = .error e →
        seqSaveErrorResult dt f.filename e ∈ b.results) := by
  refine ⟨_, batch_extract_results ef dt files elapsed h1 h50, batch_stats_results _ _,
    ?_, ?_, ?_⟩
  · rw [batch_stats_results, List.length_append, List.length_map,
      seq_partition_length dt files]
  · rw [batch_stats_total, List.length_append, List.length_map,
      seq_partition_length dt files]
  · intro f hf e he
    rw [batch_stats_results]
    apply List.mem_append_left
    exact List.mem_filterMap.mpr ⟨f, hf, by simp [seqErrCase, he]⟩

/-- C8 witness: the amended description at the concrete two-file batch
whose second file fails to save. -/
theorem C8_sequential_batch_witness :
    ∃ b, batch_extract demoExtract panTag demoFilesOneFail 0 = .ok b ∧
      b.results = demoFilesOneFail.filterMap (seqErrCase panTag)
        ++ (demoFilesOneFail.filterMap seqOkCase).map (fun pf => demoExtract pf.1 pf.2) ∧
      b.results.length = demoFilesOneFail.length ∧
      b.total_documents = demoFilesOneFail.length ∧
      (∀ f ∈ demoFilesOneFail, ∀ e, f.saveOutcome = .error e →
        seqSaveErrorResult panTag f.filename e ∈ b.results) :=
  C8_sequential_batch demoExtract panTag demoFilesOneFail 0 (by simp [demoFilesOneFail])
    (by decide)

/-! ### Claim C9 — concurrent-mode completeness -/

/-- C9: the async endpoint pairs the `i`-th *completed* save task with
`files[i]`.  With both files saving successfully but the second save
completing first (completion order `[1, 0]`), image `pb` is labelled
`a.jpg` and image `pa` is labelled `b.jpg`: the async mode yields
(error, a.jpg) and (success, b.jpg) while the sequential mode yields
(success, a.jpg) and (error, b.jpg) — the multisets of per-item outcomes
differ (both lists still have one result per input item). -/
theorem C9_async_misattribution :
    (batch_extract_async demoExtract panTag demoFiles [1, 0] [0, 1] 0).map
        (fun b => b.results.map resProj)
      = .ok [(errorStatus, some ("a.jpg".data)), (successStatus, some ("b.jpg".data))]
    ∧ (batch_extract demoExtract panTag demoFiles 0).map (fun b => b.results.map resProj)
      = .ok [(successStatus, some ("a.jpg".data)), (errorStatus, some ("b.jpg".data))]
    ∧ ¬ (List.Perm
        [(errorStatus, some ("a.jpg".data)), (successStatus, some ("b.jpg".data))]
        [(successStatus, some ("a.jpg".data)), (errorStatus, some ("b.jpg".data))])
    ∧ ([1, 0] : List Nat).Perm (List.range demoFiles.length) := by
  refine ⟨rfl, rfl, by decide, by decide⟩

/-! ### Claim C1 — the response parser's recovery order -/

theorem findSubIdx_le {s pat : Str} {j : Nat} (h : findSubIdx s pat = some j) :
    j + pat.length ≤ s.length := by
  induction s generalizing j with
  | nil =>
    unfold findSubIdx at h
    by_cases hp : pat.isEmpty = true
    · rw [if_pos hp] at h
      injection h with h
      rw [← h, List.isEmpty_iff.mp hp]
      simp
    · rw [if_neg hp] at h
      cases h
  | cons a rest ih =>
    unfold findSubIdx at h
    by_cases hp : pat.isPrefixOf (a :: rest) = true
    · rw [if_pos hp] at h
      injection h with h
      rw [← h]
      simpa using (List.isPrefixOf_iff_prefix.mp hp).length_le
    · rw [if_neg hp] at h
      cases hr : findSubIdx rest pat with
      | none => rw [hr] at h; cases h
      | some jp =>
        rw [hr] at h
        simp only [Option.map_some', Option.some.injEq] at h
        have hih := ih hr
        simp only [List.length_cons]
        omega

theorem singleton_isPrefixOf (c a : Char) (rest : Str) :
    ([c].isPrefixOf (a :: rest)) = (c == a) := by
  simp [List.isPrefixOf]

theorem containsSub_singleton (t : Str) (c : Char) :
    containsSub t [c] = decide (c ∈ t) := by
  induction t with
  | nil => rfl
  | cons a rest ih =>
    unfold containsSub findSubIdx
    rw [singleton_isPrefixOf]
    by_cases hca : c = a
    · rw [if_pos (by simp [hca])]
      simp only [Option.isSome_some, hca]
      have : a ∈ a :: rest := List.mem_cons_self a rest
      simp [this]
    · rw [if_neg (by simp [hca])]
      unfold containsSub at ih
      rw [Option.isSome_map']
      rw [ih]
      simp [List.mem_cons, hca]

theorem findSubIdx_singleton_mem {t : Str} {c : Char} (h : c ∈ t) :
    findSubIdx t [c] = some (t.findIdx (fun d => decide (d = c))) := by
  induction t with
  | nil => cases h
  | cons a rest ih =>
    unfold findSubIdx
    rw [singleton_isPrefixOf]
    by_cases hca : c = a
    · rw [if_pos (by simp [hca])]
      rw [List.findIdx_cons]
      have hd : decide (a = c) = true := by simp [hca]
      rw [hd]
      rfl
    · rw [if_neg (by simp [hca])]
      have hmem : c ∈ rest := by
        cases List.mem_cons.mp h with
        | inl hh => exact absurd hh hca
        | inr hh => exact hh
      rw [ih hmem]
      rw [List.findIdx_cons]
      have hd : decide (a = c) = false := decide_eq_false (fun hh => hca hh.symm)
      rw [hd]
      rfl

theorem findSubIdx_singleton_isSome (t : Str) (c : Char) :
    (findSubIdx t [c]).isSome = decide (c ∈ t) := containsSub_singleton t c

theorem pyRFindChar_mem {t : Str} {c : Char} (h : c ∈ t) :
    pyRFindChar t c
      = ((t.length - 1 - t.reverse.findIdx (fun d => decide (d = c)) : Nat) : Int) := by
  unfold pyRFindChar
  have hex : ∃ x ∈ t.reverse, (fun d => decide (d = c)) x = true :=
    ⟨c, List.mem_reverse.mpr h, by simp⟩
  rw [List.findIdx?_eq_some_of_exists hex]

theorem pyFind_zero (t pat : Str) : pyFind t pat 0
    = match findSubIdx t pat with
      | some i => ((i : Nat) : Int)
      | Option.none => -1 := by
  unfold pyFind
  rw [List.drop_zero]
  cases findSubIdx t pat with
  | some i => simp
  | none => rfl

/-- The candidate the code extracts for a fenced block equals the
spec-side formulation over the suffix after the marker. -/
theorem fenced_candidate_eq (t : Str) (mlen i : Nat) :
    pyStrip (pySlice t (i + mlen) (pyFind t fenceMarker (i + mlen)))
      = specFencedCandidate t mlen i := by
  unfold specFencedCandidate pyFind
  dsimp only
  cases hf : findSubIdx (t.drop (i + mlen)) fenceMarker with
  | none =>
    dsimp only
    congr 1
    unfold pySlice
    dsimp only
    rw [if_pos (by decide)]
    rw [List.drop_take]
    congr 1
    rw [List.length_drop]
    have : ((-(-1 : Int)).toNat) = 1 := by decide
    rw [this]
    omega
  | some j =>
    dsimp only
    congr 1
    have hb := findSubIdx_le hf
    rw [List.length_drop] at hb
    have hfl : fenceMarker.length = 3 := by decide
    rw [hfl] at hb
    unfold pySlice
    dsimp only
    rw [if_neg (by
      simp only [Int.not_lt]
      exact Int.natCast_nonneg _)]
    rw [List.drop_take]
    congr 1
    have htn : ((j + (i + mlen) : Nat) : Int).toNat = j + (i + mlen) := rfl
    rw [htn]
    omega

/-- The candidate the code extracts in the brace branch equals the
spec-side first-to-last-brace slice. -/
theorem brace_candidate_eq (t : Str) (h1 : '\x7b' ∈ t) (h2 : '\x7d' ∈ t) :
    pySlice t (pyFind t ['\x7b'] 0).toNat (pyRFindChar t '\x7d' + 1)
      = specBraceCandidate t := by
  have hn : 0 < t.length := List.length_pos.mpr (by rintro rfl; cases h1)
  rw [pyFind_zero, findSubIdx_singleton_mem h1, pyRFindChar_mem h2]
  unfold specBraceCandidate pySlice firstCharIdx lastCharIdx
  dsimp only
  set ridx := t.reverse.findIdx (fun d => decide (d = '\x7d')) with hridx
  have hb : ((t.length - 1 - ridx : Nat) : Int) + 1
      = ((t.length - 1 - ridx + 1 : Nat) : Int) := by push_cast; ring
  rw [hb]
  rw [if_neg (by
    simp only [Int.not_lt]
    exact Int.natCast_nonneg _)]
  have htn : ((t.length - 1 - ridx + 1 : Nat) : Int).toNat = t.length - 1 - ridx + 1 := rfl
  rw [htn]
  have hmin : min (t.length - 1 - ridx + 1) t.length = t.length - 1 - ridx + 1 := by omega
  rw [hmin]
  rfl

/-- C1 counterexample: on a response with no fences and no braces the
parser raises the `ValueError` (case 5), which the caller's generic
handler wraps with no preview of the text; the first-500-characters
preview exists only on the `JSONDecodeError` path (cases 2-4). -/
theorem C1_counterexample :
    parse_json_response jsonLoads ("hello world".data) = .error .valueErrorNoJson
    ∧ wrap_parse_exception ("hello world".data) .valueErrorNoJson
      = .genericApiError couldNotParseMsg
    ∧ ¬ (ApiErrorKind.genericApiError couldNotParseMsg
        = ApiErrorKind.jsonDecodeWithPreview (List.take 500 ("hello world".data))) := by
  refine ⟨rfl, rfl, by decide⟩

/-- C1 (amended): for every decoder and every response text, the parser
implements exactly the recovery order of the spec-side restatement:
(1) direct parse; (2) else, if a ` ```json ` marker occurs, parse the
trimmed candidate between the marker and the next fence (to the end of the
text minus its final character when no fence follows), raising
`JSONDecodeError` if it fails to decode; (3) else the same for a plain
` ``` ` fence; (4) else, if the text contains `\x7b` and `\x7d`, parse the
untrimmed slice from the first `\x7b` through the last `\x7d`; (5)
otherwise raise the `ValueError` (whose wrapper carries no preview).  The
candidate is always a verbatim (at most trimmed) substring — the payload
is never repaired. -/
theorem C1_parse_fallback (jl : Str → Option PyVal) (t : Str) :
    parse_json_response jl t = parse_recovery_spec jl t := by
  unfold parse_json_response parse_recovery_spec
  cases hjl : jl t with
  | some v => rfl
  | none =>
    dsimp only
    unfold containsSub
    by_cases h1 : (findSubIdx t jsonFenceMarker).isSome = true
    · rw [if_pos h1, if_pos h1]
      obtain ⟨i, hi⟩ := Option.isSome_iff_exists.mp h1
      rw [hi]
      have hp0 : (pyFind t jsonFenceMarker 0).toNat = i := by
        rw [pyFind_zero, hi]
        rfl
      rw [hp0]
      dsimp only [Option.getD_some]
      rw [fenced_candidate_eq t 7 i]
      unfold specTryCandidate
      cases jl (specFencedCandidate t 7 i) <;> rfl
    · rw [if_neg h1, if_neg h1]
      by_cases h2 : (findSubIdx t fenceMarker).isSome = true
      · rw [if_pos h2, if_pos h2]
        obtain ⟨i, hi⟩ := Option.isSome_iff_exists.mp h2
        rw [hi]
        have hp0 : (pyFind t fenceMarker 0).toNat = i := by
          rw [pyFind_zero, hi]
          rfl
        rw [hp0]
        dsimp only [Option.getD_some]
        rw [fenced_candidate_eq t 3 i]
        unfold specTryCandidate
        cases jl (specFencedCandidate t 3 i) <;> rfl
      · rw [if_neg h2, if_neg h2]
        rw [findSubIdx_singleton_isSome, findSubIdx_singleton_isSome]
        by_cases h3 : (decide ('\x7b' ∈ t) && decide ('\x7d' ∈ t)) = true
        · rw [if_pos h3, if_pos h3]
          have hmem1 : '\x7b' ∈ t := by
            have := (Bool.and_eq_true _ _).mp h3
            exact of_decide_eq_true this.1
          have hmem2 : '\x7d' ∈ t := by
            have := (Bool.and_eq_true _ _).mp h3
            exact of_decide_eq_true this.2
          rw [brace_candidate_eq t hmem1 hmem2]
          unfold specTryCandidate
          cases jl (specBraceCandidate t) <;> rfl
        · rw [if_neg h3, if_neg h3]

/-- C1 witness: the equivalence and concrete recovery outcomes at the
model `json.loads` — a fenced response, a brace-embedded response, and the
no-candidate failure. -/
theorem C1_parse_fallback_witness :
    parse_json_response jsonLoads ("prose ```json\n\x7b\"a\": 1\x7d\n``` more".data)
      = parse_recovery_spec jsonLoads ("prose ```json\n\x7b\"a\": 1\x7d\n``` more".data)
    ∧ parse_json_response jsonLoads ("pre \x7b\"a\": 1\x7d post".data)
      = parse_recovery_spec jsonLoads ("pre \x7b\"a\": 1\x7d post".data)
    ∧ parse_json_response jsonLoads ("hello world".data)
      = parse_recovery_spec jsonLoads ("hello world".data) :=
  ⟨C1_parse_fallback jsonLoads _, C1_parse_fallback jsonLoads _,
    C1_parse_fallback jsonLoads _⟩

end DocuMind
